import Mathlib

/-
  Verification of the Vertex Baker Blender add-on (src/__init__.py).

  The add-on is an orchestration script over Blender's scripting API.  We give a
  shallow embedding of the scene state it manipulates and of every function the
  claims depend on, translated from the source file:

  * `World` models the relevant part of `bpy.data` plus the scene render
    settings: the object datablocks (name, mesh-data identity, visibility
    flags, modifier stack, color attributes, material slots), the collections,
    the material and node-group datablock names, and the Cycles/bake settings.
    Mesh datablocks are represented inline on each object together with a
    `dataId`; `obj.data.copy()` is modeled by assigning a fresh `dataId`
    (`World.nextDataId` with the invariant that all live ids are below it).
  * `Env` models the host environment of one operator invocation: the current
    selection, the contents of the bundled `VertexBaker.blend` file, the wall
    clock string used in log lines, and injected host-API failures (which
    `bpy.ops` call raises, and which `modifier_apply` calls fail with
    `RuntimeError` inside `clean_bake_object_modifiers`).
  * Exceptions are values of `Exn`; fallible code returns an error component.
  * `Event` instruments the pipeline: each host-API milestone of the operator
    (asset load, per-object duplication, modifier cleaning, each
    `bpy.ops.object.bake` invocation, bounding-box creation, packer
    application, data-transfer attachment) appends one event, so ordering
    claims are statements about the emitted trace.

  Out of scope of the model (none of the claims depend on them): the actual
  color values written by baking, mesh geometry (the bounding-box vertex data,
  `matrix_world`, scale/location), viewport shading setup
  (`setup_viewport_for_vertex_colors` only mutates UI spaces), the UI panel and
  property registration, the selection/active-object bookkeeping
  (`store_selection` / `restore_selection` / `select_objects`), the
  `hide_set` view-layer flag (only `hide_viewport` is kept), the bake duration
  string, and the dead temporary datablocks ("temp", "temp_mesh") created and
  never used inside `create_combined_bounding_box`.
-/

-- ------------------------------------------------------------
-- Constants (src/__init__.py lines 20-31)
-- ------------------------------------------------------------

def BAKE_SUFFIX : String := "_bake"

def BAKE_COLLECTION : String := "VC_Bake"

def DT_MOD_NAME : String := "DT_VC_Packed"

def VC_PACKED : String := "VC_Packed"

def VC_AO : String := "VC_AO"

def VC_CURVATURE : String := "VC_Curvature"

def VC_PREVIEW : String := "VC_Preview"

def VC_GRADIENT : String := "VC_Gradient"

def MAT_CURVATURE : String := "Mat_Curvature"

def MAT_GRADIENT : String := "Mat_Gradient"

-- ------------------------------------------------------------
-- Data model
-- ------------------------------------------------------------

/-- A mesh color attribute (`obj.data.color_attributes` entry). -/
structure ColorAttr where
  name : String
  attrType : String
  domain : String
deriving Repr, DecidableEq

/-- A modifier on an object's modifier stack.  Fields beyond `name`, `mtype`,
`nodeGroup`, `showViewport`, `showInEditmode` are the Data Transfer settings
written by `ensure_datatransfer`; they exist on the record for every modifier
because the Python code would write them through dynamic attributes. -/
structure Modifier where
  name : String
  mtype : String
  nodeGroup : Option String := none
  showViewport : Bool := true
  showInEditmode : Bool := true
  dtObject : Option String := none
  useVertData : Bool := false
  useLoopData : Bool := false
  dataTypesVerts : List String := []
  layersVcolVertSelectSrc : String := ""
  layersVcolVertSelectDst : String := ""
  vertMapping : String := ""
  mixMode : String := ""
  mixFactor : ℚ := 0
deriving Repr, DecidableEq

/-- An object datablock together with its (inlined) mesh datablock.
`dataId` identifies the mesh datablock; a copy gets a fresh id. -/
structure Obj where
  name : String
  objType : String
  dataId : Nat
  hideRender : Bool := false
  hideViewport : Bool := false
  modifiers : List Modifier := []
  colorAttributes : List ColorAttr := []
  activeColor : Option String := none
  materials : List String := []
deriving Repr, DecidableEq

/-- A collection datablock; `layerExclude`/`layerHideViewport` stand for the
view-layer `LayerCollection` flags touched by
`ensure_collection_visible_and_editable`. -/
structure Collection where
  name : String
  hideViewport : Bool := false
  hideRender : Bool := false
  layerExclude : Bool := false
  layerHideViewport : Bool := false
  objectNames : List String := []
deriving Repr, DecidableEq

/-- The scene render / Cycles / bake settings mutated by
`configure_cycles_for_baking` and by the operator's bake-pass flag writes. -/
structure RenderSettings where
  engine : String
  cyclesDevice : String := ""
  cyclesSamples : Nat := 0
  useAdaptiveSampling : Bool := true
  lightSamplingThreshold : ℚ := 1
  useDenoising : Bool := true
  bakeTarget : String := ""
  useSelectedToActive : Bool := false
  useMultires : Bool := false
  usePassDirect : Bool := true
  usePassIndirect : Bool := true
  usePassColor : Bool := true
deriving Repr, DecidableEq

/-- The mutable host state visible to the operator: `bpy.data` datablocks plus
the scene settings.  `aoSamples` is the `vertex_baker.ao_samples` scene
property. -/
structure World where
  objects : List Obj := []
  collections : List Collection := []
  materials : List String := []
  nodeGroups : List String := []
  render : RenderSettings
  nextDataId : Nat := 0
  aoSamples : Nat := 32
deriving Repr, DecidableEq

/-- Python exceptions raised by the modeled code. -/
inductive Exn where
  | fileNotFound (msg : String)
  | keyError (key : String)
  | runtimeError (msg : String)
  | hostError (msg : String)
deriving Repr, DecidableEq

/-- Host-API calls of the pipeline at which the environment may raise: the
three `bpy.ops.object.bake` invocations and the `modifier_apply` of the
VC_Packer modifier on a given bake object. -/
inductive FailPoint where
  | bakeCurvature
  | bakeAO
  | bakeGradient
  | applyPacker (objName : String)
deriving Repr, DecidableEq

/-- Instrumentation events, one per pipeline milestone.  A `bakePass` event
records the bake type, the target color attribute, and a snapshot of every
object's `(name, hide_render)` at the moment `bpy.ops.object.bake` runs. -/
inductive Event where
  | loadAssets
  | duplicate (origName dupName : String)
  | clean (dupName : String)
  | bakePass (bakeType colorName : String) (snap : List (String × Bool))
  | boundingBox
  | applyPacker (dupName : String)
  | attachDT (origName dupName : String)
deriving Repr, DecidableEq

/-- The host environment of one operator invocation. -/
structure Env where
  selected : List String := []
  blendFileExists : Bool := true
  blendMaterials : List String := []
  blendNodeGroups : List String := []
  failAt : Option FailPoint := none
  failExn : Exn := Exn.hostError ""
  applyFails : String → String → Bool := fun _ _ => false
  now : String := ""

/-- Operator return status (`{'FINISHED'}` / `{'CANCELLED'}` / a propagated
exception). -/
inductive Status where
  | finished
  | cancelled
  | raised (e : Exn)
deriving Repr, DecidableEq

/-- Result of one `execute` invocation: status, final host state, event trace,
console log lines, and `self.report` messages. -/
structure ExecResult where
  status : Status
  w : World
  tr : List Event
  logs : List String
  reports : List (String × String)
deriving Repr, DecidableEq

-- ------------------------------------------------------------
-- Basic state accessors / updates
-- ------------------------------------------------------------

/-- `bpy.data.objects[n]` lookup (first object with that name). -/
def findObj (w : World) (n : String) : Option Obj :=
  w.objects.find? (fun o => o.name == n)

/-- Mutate the object datablock named `n` in place (Blender object names are
unique, so at most one object is affected in any reachable state). -/
def updateObj (w : World) (n : String) (f : Obj → Obj) : World :=
  { w with objects := w.objects.map (fun o => if o.name = n then f o else o) }

/-- `bpy.data.objects.remove(obj, do_unlink=True)` for the object named `n`:
the datablock disappears and is unlinked from every collection. -/
def removeObjByName (w : World) (n : String) : World :=
  { w with
    objects := w.objects.filter (fun o => o.name ≠ n),
    collections := w.collections.map (fun c =>
      { c with objectNames := c.objectNames.filter (fun m => m ≠ n) }) }

/-- The `hide_render` flag of the object named `n`, if it exists. -/
def objHideRender (w : World) (n : String) : Option Bool :=
  (findObj w n).map (fun o => o.hideRender)

-- ------------------------------------------------------------
-- Asset Loading (src lines 176-191)
-- ------------------------------------------------------------

/-- `load_from_blend`: raise `FileNotFoundError` when the bundled blend file is
absent; otherwise append each of the two materials and two node groups that is
not yet in the current file's data and is present in the bundled file. -/
def load_from_blend (env : Env) (w : World) : Except Exn World :=
  if env.blendFileExists = false then
    Except.error (Exn.fileNotFound "VertexBaker.blend not found next to add-on")
  else
    let w1 := [MAT_CURVATURE, MAT_GRADIENT].foldl (fun acc mat =>
      if mat ∉ acc.materials ∧ mat ∈ env.blendMaterials then
        { acc with materials := acc.materials ++ [mat] }
      else acc) w
    let w2 := ["VC_Processor", "VC_Packer"].foldl (fun acc ng =>
      if ng ∉ acc.nodeGroups ∧ ng ∈ env.blendNodeGroups then
        { acc with nodeGroups := acc.nodeGroups ++ [ng] }
      else acc) w1
    Except.ok w2

-- ------------------------------------------------------------
-- Collection & Duplication (src lines 198-243)
-- ------------------------------------------------------------

/-- `ensure_collection`: fetch or create-and-link the named collection, then
clear its `hide_viewport` / `hide_render` flags. -/
def ensure_collection (w : World) (name : String) : World :=
  if w.collections.any (fun c => c.name == name) then
    { w with collections := w.collections.map (fun c =>
        if c.name = name then { c with hideViewport := false, hideRender := false } else c) }
  else
    { w with collections := w.collections ++
        [{ name := name, hideViewport := false, hideRender := false }] }

/-- `ensure_collection_visible_and_editable`: clear the datablock flags again
and un-exclude / un-hide the matching view-layer collection. -/
def ensure_collection_visible_and_editable (w : World) (name : String) : World :=
  { w with collections := w.collections.map (fun c =>
      if c.name = name then
        { c with hideViewport := false, hideRender := false,
                 layerExclude := false, layerHideViewport := false }
      else c) }

/-- `duplicate_object`: remove any existing object called `obj.name + suffix`,
then link a copy of `obj` (with a fresh copy of its mesh data) under that name
into `collection`. -/
def duplicate_object (w : World) (origName suffix collName : String) : World :=
  match findObj w origName with
  | none => w
  | some obj =>
    let newName := origName ++ suffix
    let w1 := if w.objects.any (fun o => o.name == newName) then removeObjByName w newName else w
    let dup : Obj := { obj with name := newName, dataId := w1.nextDataId }
    { w1 with
      objects := w1.objects ++ [dup],
      nextDataId := w1.nextDataId + 1,
      collections := w1.collections.map (fun c =>
        if c.name = collName then { c with objectNames := c.objectNames ++ [newName] } else c) }

-- ------------------------------------------------------------
-- Mesh Preparation (src lines 250-308)
-- ------------------------------------------------------------

/-- `ensure_color_attribute`: create a `FLOAT_COLOR` / `POINT` attribute of the
given name unless one with that name already exists. -/
def ensure_color_attribute (o : Obj) (name : String) : Obj :=
  if o.colorAttributes.any (fun a => a.name == name) then o
  else
    { o with colorAttributes := o.colorAttributes ++
        [{ name := name, attrType := "FLOAT_COLOR", domain := "POINT" }] }

/-- `set_active_color_attribute`: make the named attribute both the active bake
target and the displayed attribute, when it exists. -/
def set_active_color_attribute (o : Obj) (name : String) : Obj :=
  if o.colorAttributes.any (fun a => a.name == name) then
    { o with activeColor := some name }
  else o

/-- Remove the first color attribute with the given name, if any
(`color_attributes.get` + `remove`). -/
def removeAttrFirst (l : List ColorAttr) (n : String) : List ColorAttr :=
  match l with
  | [] => []
  | a :: r => if a.name = n then r else a :: removeAttrFirst r n

/-- `remove_unused_target_color_attributes`: drop the `VC_AO`, `VC_Curvature`
and `VC_Gradient` attributes from the mesh. -/
def remove_unused_target_color_attributes (o : Obj) : Obj :=
  { o with colorAttributes :=
      [VC_AO, VC_CURVATURE, VC_GRADIENT].foldl removeAttrFirst o.colorAttributes }

/-- The `if/elif` chain of `clean_bake_object_modifiers` deciding whether a
modifier is put on `mods_to_remove`.  Note the flow of the source: a NODES
modifier that has a node group enters the second branch, so its
`show_viewport` flag is never examined. -/
def shouldRemoveMod (m : Modifier) : Bool :=
  if m.mtype = "DATA_TRANSFER" then true
  else if m.mtype = "NODES" ∧ m.nodeGroup.isSome then
    match m.nodeGroup with
    | some g => decide (g = "VC_Processor" ∨ g = "VC_Packer")
    | none => false
  else ! m.showViewport

/-- Remove the first modifier with the given name (`obj.modifiers.get` +
`obj.modifiers.remove`). -/
def removeModFirst (l : List Modifier) (n : String) : List Modifier :=
  match l with
  | [] => []
  | m :: r => if m.name = n then r else m :: removeModFirst r n

/-- `clean_bake_object_modifiers` acting on a modifier stack: first remove
every modifier whose name was collected by the `if/elif` chain, then walk a
snapshot of the remaining stack and apply each modifier
(`bpy.ops.object.modifier_apply`), ignoring a `RuntimeError`; `applyFailsFor`
tells which apply calls the host fails.  Applying a modifier removes it from
the stack (the resulting mesh-geometry change is outside the model). -/
def clean_bake_object_modifiers (applyFailsFor : String → Bool) (o : Obj) : Obj :=
  let names := o.modifiers.filterMap (fun m => if shouldRemoveMod m then some m.name else none)
  let afterRemove := names.foldl removeModFirst o.modifiers
  let afterApply := (afterRemove.map (fun m => m.name)).foldl
      (fun cur n => if applyFailsFor n then cur else removeModFirst cur n) afterRemove
  { o with modifiers := afterApply }

-- ------------------------------------------------------------
-- Baking Helpers (src lines 315-347)
-- ------------------------------------------------------------

/-- `configure_cycles_for_baking`. -/
def configure_cycles_for_baking (r : RenderSettings) (samples : Nat) : RenderSettings :=
  { r with
    engine := "CYCLES", cyclesDevice := "GPU", cyclesSamples := samples,
    useAdaptiveSampling := false, lightSamplingThreshold := 0, useDenoising := false,
    bakeTarget := "VERTEX_COLORS", useSelectedToActive := false, useMultires := false }

/-- The three `use_pass_direct` / `use_pass_indirect` / `use_pass_color`
writes done before each bake pass. -/
def set_bake_pass_flags (r : RenderSettings) (direct indirect color : Bool) : RenderSettings :=
  { r with usePassDirect := direct, usePassIndirect := indirect, usePassColor := color }

/-- One iteration of `disable_render_temporarily`: record the current
`hide_render`, then set it. -/
def disable_step (p : World × List (String × Bool)) (n : String) :
    World × List (String × Bool) :=
  let cur := match findObj p.1 n with
    | some o => o.hideRender
    | none => false
  (updateObj p.1 n (fun o => { o with hideRender := true }), p.2 ++ [(n, cur)])

/-- `disable_render_temporarily`: hide every listed object from rendering and
return the saved previous flags. -/
def disable_render_temporarily (w : World) (objNames : List String) :
    World × List (String × Bool) :=
  objNames.foldl disable_step (w, [])

/-- `restore_render_state`: write each saved `hide_render` flag back. -/
def restore_render_state (w : World) (state : List (String × Bool)) : World :=
  state.foldl (fun acc p => updateObj acc p.1 (fun o => { o with hideRender := p.2 })) w

-- ------------------------------------------------------------
-- Projection Helpers (src lines 354-377)
-- ------------------------------------------------------------

/-- The field writes `ensure_datatransfer` performs on the (new or found)
`DT_VC_Packed` modifier. -/
def dtConfigure (src : String) (m : Modifier) : Modifier :=
  { m with
    dtObject := some src,
    useVertData := true, useLoopData := false,
    dataTypesVerts := ["VGROUP_WEIGHTS", "COLOR_VERTEX"],
    layersVcolVertSelectSrc := "ALL", layersVcolVertSelectDst := "NAME",
    vertMapping := "NEAREST",
    mixMode := "REPLACE", mixFactor := 1,
    showInEditmode := false }

/-- Update the first modifier with the given name. -/
def updateModFirst (l : List Modifier) (n : String) (f : Modifier → Modifier) : List Modifier :=
  match l with
  | [] => []
  | m :: r => if m.name = n then f m :: r else m :: updateModFirst r n f

/-- `ensure_datatransfer`: reuse the modifier called `DT_VC_Packed` if present,
otherwise append a new `DATA_TRANSFER` modifier of that name; then configure
it to copy vertex colors from `src` by nearest-vertex mapping with REPLACE
mixing at factor 1. -/
def ensure_datatransfer (o : Obj) (src : String) : Obj :=
  if o.modifiers.any (fun m => m.name == DT_MOD_NAME) then
    { o with modifiers := updateModFirst o.modifiers DT_MOD_NAME (dtConfigure src) }
  else
    { o with modifiers := o.modifiers ++
        [dtConfigure src { name := DT_MOD_NAME, mtype := "DATA_TRANSFER" }] }

-- ------------------------------------------------------------
-- Bounding Box Helper (src lines 384-472)
-- ------------------------------------------------------------

/-- `create_combined_bounding_box`: when there are objects, remove any existing
`_boundingbox_bake` object, then create and link a fresh mesh object of that
name with `hide_render = True`.  The cube geometry, world-space bounds, scale
and location are outside the model. -/
def create_combined_bounding_box (w : World) (objNames : List String) (collName : String) :
    World :=
  if objNames.isEmpty then w
  else
    let name := "_boundingbox_bake"
    let w1 := if w.objects.any (fun o => o.name == name) then removeObjByName w name else w
    let bbox : Obj := { name := name, objType := "MESH", dataId := w1.nextDataId,
                        hideRender := true }
    { w1 with
      objects := w1.objects ++ [bbox],
      nextDataId := w1.nextDataId + 1,
      collections := w1.collections.map (fun c =>
        if c.name = collName then { c with objectNames := c.objectNames ++ [name] } else c) }

-- ------------------------------------------------------------
-- The operator pipeline (src lines 514-665), staged
-- ------------------------------------------------------------

/-- Partial outcome of a pipeline prefix: current state, events emitted so
far, and the pending exception if one was raised. -/
structure PipeOut where
  w : World
  tr : List Event
  err : Option Exn
deriving Repr, DecidableEq

/-- Sequencing with exception propagation: once an exception is pending, later
statements do not run. -/
def PipeOut.andThen (p : PipeOut) (f : World → PipeOut) : PipeOut :=
  match p.err with
  | some _ => p
  | none =>
    let q := f p.w
    { w := q.w, tr := p.tr ++ q.tr, err := q.err }

/-- World part of one iteration of the duplication loop (src lines 538-541):
ensure the `VC_Packed` and `VC_Preview` attributes on the original, then
duplicate it into the bake collection. -/
def dup_stepW (w : World) (n : String) : World :=
  let w1 := updateObj w n (fun o => ensure_color_attribute o VC_PACKED)
  let w2 := updateObj w1 n (fun o => ensure_color_attribute o VC_PREVIEW)
  duplicate_object w2 n BAKE_SUFFIX BAKE_COLLECTION

/-- Duplication-loop iteration with its trace event. -/
def dup_step (p : World × List Event) (n : String) : World × List Event :=
  (dup_stepW p.1 n, p.2 ++ [Event.duplicate n (n ++ BAKE_SUFFIX)])

/-- Stage (b): the duplication loop over the selected originals. -/
def stage_duplicate (originals : List String) (w : World) : PipeOut :=
  let r := originals.foldl dup_step (w, [])
  { w := r.1, tr := r.2, err := none }

/-- World part of one iteration of the curvature-prep loop (src lines
550-559): unhide the bake object, give it the curvature material as its only
material, ensure the five color attributes, and clean its modifier stack. -/
def prep_stepW (env : Env) (w : World) (n : String) : World :=
  updateObj w n (fun o =>
    let o1 := { o with hideViewport := false }
    let o2 := { o1 with materials := [MAT_CURVATURE] }
    let o3 := [VC_PACKED, VC_AO, VC_CURVATURE, VC_GRADIENT, VC_PREVIEW].foldl
        ensure_color_attribute o2
    clean_bake_object_modifiers (env.applyFails n) o3)

/-- Curvature-prep iteration with its trace event. -/
def prep_step (env : Env) (p : World × List Event) (n : String) : World × List Event :=
  (prep_stepW env p.1 n, p.2 ++ [Event.clean n])

/-- Stage (c): the curvature-prep loop over the bake objects. -/
def stage_prep (env : Env) (bakeObjs : List String) (w : World) : PipeOut :=
  let r := bakeObjs.foldl (prep_step env) (w, [])
  { w := r.1, tr := r.2, err := none }

/-- `bake_to_color` followed by `bpy.ops.object.bake(type=bakeType)`: set the
active color attribute on every bake object, then invoke the bake, which the
environment may fail at this `FailPoint`.  The event snapshots every object's
`hide_render` at the moment of the bake call. -/
def bake_call (env : Env) (fp : FailPoint) (bakeType colorName : String)
    (objNames : List String) (w : World) : PipeOut :=
  let w1 := objNames.foldl
      (fun acc n => updateObj acc n (fun o => set_active_color_attribute o colorName)) w
  let snap := w1.objects.map (fun o => (o.name, o.hideRender))
  { w := w1,
    tr := [Event.bakePass bakeType colorName snap],
    err := if env.failAt = some fp then some env.failExn else none }

/-- Stage (d1): configure Cycles from `ao_samples`, set the diffuse-pass flags
and run the curvature bake (src lines 561-568). -/
def stage_curvature (env : Env) (bakeObjs : List String) (w : World) : PipeOut :=
  let w1 := { w with render :=
      set_bake_pass_flags (configure_cycles_for_baking w.render w.aoSamples) false false true }
  bake_call env FailPoint.bakeCurvature "DIFFUSE" VC_CURVATURE bakeObjs w1

/-- Stage (d2): the AO bake (src lines 575-583) with its own try/finally that
hides the originals from rendering during the bake and restores their flags
afterwards even when the bake raises. -/
def stage_ao (env : Env) (originals bakeObjs : List String) (w : World) : PipeOut :=
  let w1 := { w with render := set_bake_pass_flags w.render true true true }
  let r := disable_render_temporarily w1 originals
  let q := bake_call env FailPoint.bakeAO "AO" VC_AO bakeObjs r.1
  { q with w := restore_render_state q.w r.2 }

/-- Stage: combined bounding box creation (src lines 589-593). -/
def stage_bbox (bakeObjs : List String) (w : World) : PipeOut :=
  { w := create_combined_bounding_box w bakeObjs BAKE_COLLECTION,
    tr := [Event.boundingBox], err := none }

/-- Stage (d3): swap every bake object's material to the gradient material,
set the diffuse-pass flags and run the gradient bake (src lines 601-608). -/
def stage_gradient (env : Env) (bakeObjs : List String) (w : World) : PipeOut :=
  let w1 := bakeObjs.foldl
      (fun acc n => updateObj acc n (fun o => { o with materials := [MAT_GRADIENT] })) w
  let w2 := { w1 with render := set_bake_pass_flags w1.render false false true }
  bake_call env FailPoint.bakeGradient "DIFFUSE" VC_GRADIENT bakeObjs w2

/-- One iteration of the packing loop (src lines 615-620): append a new
`VC_Packer` geometry-nodes modifier, apply it (`modifier_apply` removes it
from the stack; the environment may raise here), then make `VC_AO` the active
attribute. -/
def packer_step (env : Env) (p : PipeOut) (n : String) : PipeOut :=
  match p.err with
  | some _ => p
  | none =>
    let w1 := updateObj p.w n (fun o =>
      { o with modifiers := o.modifiers ++
          [{ name := "VC_Packer", mtype := "NODES", nodeGroup := some "VC_Packer" }] })
    if env.failAt = some (FailPoint.applyPacker n) then
      { w := w1, tr := p.tr ++ [Event.applyPacker n], err := some env.failExn }
    else
      let w2 := updateObj w1 n (fun o =>
        { o with modifiers := removeModFirst o.modifiers "VC_Packer" })
      let w3 := updateObj w2 n (fun o => set_active_color_attribute o VC_AO)
      { w := w3, tr := p.tr ++ [Event.applyPacker n], err := none }

/-- Stage (e): look up the `VC_Packer` node group (`KeyError` when absent),
then run the packing loop over the bake objects (src lines 614-620). -/
def stage_packing (env : Env) (bakeObjs : List String) (w : World) : PipeOut :=
  if "VC_Packer" ∈ w.nodeGroups then
    bakeObjs.foldl (packer_step env) { w := w, tr := [], err := none }
  else
    { w := w, tr := [], err := some (Exn.keyError "VC_Packer") }

/-- One iteration of the projection loop (src lines 622-628): attach/refresh
the data-transfer modifier on the original pointing at its duplicate, drop the
intermediate target attributes, and add a `VC_Processor` geometry-nodes
modifier when the original does not have one (the node-group lookup raises
`KeyError` when the group is absent, after `modifiers.new` already ran). -/
def dt_step (p : PipeOut) (pair : String × String) : PipeOut :=
  match p.err with
  | some _ => p
  | none =>
    let orig := pair.1
    let dup := pair.2
    let w1 := updateObj p.w orig
        (fun o => remove_unused_target_color_attributes (ensure_datatransfer o dup))
    let needsProc := match findObj w1 orig with
      | some o => ! (o.modifiers.any (fun m => m.name == "VC_Processor"))
      | none => false
    if needsProc then
      if "VC_Processor" ∈ w1.nodeGroups then
        let w2 := updateObj w1 orig (fun o =>
          { o with modifiers := o.modifiers ++
              [{ name := "VC_Processor", mtype := "NODES",
                 nodeGroup := some "VC_Processor", showInEditmode := false }] })
        { w := w2, tr := p.tr ++ [Event.attachDT orig dup], err := none }
      else
        let w2 := updateObj w1 orig (fun o =>
          { o with modifiers := o.modifiers ++
              [{ name := "VC_Processor", mtype := "NODES" }] })
        { w := w2, tr := p.tr ++ [Event.attachDT orig dup],
          err := some (Exn.keyError "VC_Processor") }
    else
      { w := w1, tr := p.tr ++ [Event.attachDT orig dup], err := none }

/-- Stage (f): the projection loop over `dup_map.items()`. -/
def stage_dt (originals : List String) (w : World) : PipeOut :=
  (originals.map (fun n => (n, n ++ BAKE_SUFFIX))).foldl dt_step
    { w := w, tr := [], err := none }

/-- Final loop (src lines 630-631): make `VC_Preview` the active attribute on
every original.  (`setup_viewport_for_vertex_colors` only mutates UI shading
state and is outside the model.) -/
def stage_finalize (originals : List String) (w : World) : PipeOut :=
  { w := originals.foldl
      (fun acc n => updateObj acc n (fun o => set_active_color_attribute o VC_PREVIEW)) w,
    tr := [], err := none }

/-- The body of the inner `try` (src lines 537-633). -/
def pipeline_body (env : Env) (originals : List String) (w : World) : PipeOut :=
  let bakeObjs := originals.map (fun n => n ++ BAKE_SUFFIX)
  ((((((((stage_duplicate originals w).andThen
    (stage_prep env bakeObjs)).andThen
    (stage_curvature env bakeObjs)).andThen
    (stage_ao env originals bakeObjs)).andThen
    (stage_bbox bakeObjs)).andThen
    (stage_gradient env bakeObjs)).andThen
    (stage_packing env bakeObjs)).andThen
    (stage_dt originals)).andThen
    (stage_finalize originals)

/-- The outer `try` body (src lines 527-637): load assets, look up the two
materials (`KeyError` when missing), prepare the bake collection, remember the
render engine, run the pipeline body, and in a `finally` hide the bake
collection and restore the engine. -/
def run_pipeline (env : Env) (originals : List String) (w : World) : PipeOut :=
  match load_from_blend env w with
  | Except.error e => { w := w, tr := [], err := some e }
  | Except.ok w1 =>
    if MAT_CURVATURE ∈ w1.materials then
      if MAT_GRADIENT ∈ w1.materials then
        let w2 := ensure_collection w1 BAKE_COLLECTION
        let w3 := ensure_collection_visible_and_editable w2 BAKE_COLLECTION
        let savedEngine := w3.render.engine
        let body := pipeline_body env originals w3
        { w := { body.w with
                 collections := body.w.collections.map (fun c =>
                   if c.name = BAKE_COLLECTION then { c with hideViewport := true } else c),
                 render := { body.w.render with engine := savedEngine } },
          tr := Event.loadAssets :: body.tr,
          err := body.err }
      else { w := w1, tr := [Event.loadAssets], err := some (Exn.keyError MAT_GRADIENT) }
    else { w := w1, tr := [Event.loadAssets], err := some (Exn.keyError MAT_CURVATURE) }

/-- `context.selected_objects` filtered to meshes (src line 519). -/
def selected_mesh_objects (env : Env) (w : World) : List String :=
  env.selected.filter (fun n =>
    match findObj w n with
    | some o => o.objType == "MESH"
    | none => false)

/-- `OBJECT_OT_vc_bake_project.execute` (src lines 514-665).  The selection
restore, duration bookkeeping and `last_bake_duration` write of the finished
path touch only UI state / the clock and are outside the model. -/
def OBJECT_OT_vc_bake_project.execute (env : Env) (w : World) : ExecResult :=
  let originals := selected_mesh_objects env w
  if originals = [] then
    { status := Status.cancelled, w := w, tr := [], logs := [],
      reports := [("ERROR", "No mesh objects selected")] }
  else
    let startLine := "[Vertex Baker] Bake started at: " ++ env.now
    let p := run_pipeline env originals w
    match p.err with
    | some e =>
      { status := Status.raised e, w := p.w, tr := p.tr,
        logs := [startLine, "[Vertex Baker] Bake failed at: " ++ env.now],
        reports := [] }
    | none =>
      { status := Status.finished, w := p.w, tr := p.tr,
        logs := [startLine, "[Vertex Baker] Bake finished at: " ++ env.now],
        reports := [("INFO", "Finished Bake")] }

-- ------------------------------------------------------------
-- Specification accessors
-- ------------------------------------------------------------

/-- The names of all collections in the file. -/
def collNames (w : World) : List String := w.collections.map (fun c => c.name)

/-- The names of a modifier stack. -/
def modNames (l : List Modifier) : List String := l.map (fun m => m.name)

/-- Every object named `n` is currently hidden from rendering. -/
def allHiddenNamed (w : World) (n : String) : Prop :=
  ∀ o ∈ w.objects, o.name = n → o.hideRender = true

/-- The set-hidden update used by `disable_render_temporarily`. -/
def setHideRender (b : Bool) (o : Obj) : Obj := { o with hideRender := b }

-- ------------------------------------------------------------
-- Concrete sample scenes used to evaluate the model
-- ------------------------------------------------------------

/-- A sample mesh object. -/
def cubeObj : Obj := { name := "Cube", objType := "MESH", dataId := 0 }

/-- A sample non-mesh object. -/
def lightObj : Obj := { name := "Light", objType := "LIGHT", dataId := 1 }

/-- A sample scene with one mesh and one light, no collections yet. -/
def sampleW : World :=
  { objects := [cubeObj, lightObj], render := { engine := "BLENDER_EEVEE_NEXT" },
    nextDataId := 2 }

/-- A scene whose `VC_Bake` collection already exists and is visible. -/
def sampleWVis : World :=
  { objects := [cubeObj, lightObj],
    collections := [{ name := "VC_Bake", hideViewport := false }],
    render := { engine := "BLENDER_EEVEE_NEXT" }, nextDataId := 2 }

/-- An environment with the bundled blend file present and complete, the cube
selected, and no host failures. -/
def sampleEnv : Env :=
  { selected := ["Cube", "Light"], blendFileExists := true,
    blendMaterials := ["Mat_Curvature", "Mat_Gradient"],
    blendNodeGroups := ["VC_Processor", "VC_Packer"], now := "12:00:00" }

-- ------------------------------------------------------------
-- Generic list / fold lemmas
-- ------------------------------------------------------------

theorem mapCongrMem {α β : Type} (l : List α) (f g : α → β)
    (h : ∀ a ∈ l, f a = g a) : l.map f = l.map g := by
  induction l with
  | nil => rfl
  | cons a l ih =>
    simp only [List.map_cons]
    rw [h a (by simp), ih (fun a ha => h a (by simp [ha]))]

theorem foldl_pair_trace {α : Type} (f : World → α → World) (g : α → Event)
    (step : World × List Event → α → World × List Event)
    (hstep : ∀ p a, step p a = (f p.1 a, p.2 ++ [g a])) :
    ∀ (l : List α) (w : World) (t : List Event),
      l.foldl step (w, t) = (l.foldl f w, t ++ l.map g) := by
  intro l
  induction l with
  | nil => intro w t; simp
  | cons a l ih =>
    intro w t
    simp only [List.foldl_cons, List.map_cons, hstep]
    rw [ih]
    simp

theorem foldl_preserve_mem {σ α β : Type} (g : σ → β) (f : σ → α → σ) :
    ∀ (l : List α), (∀ s, ∀ a ∈ l, g (f s a) = g s) →
      ∀ (s : σ), g (l.foldl f s) = g s := by
  intro l
  induction l with
  | nil => intro _ s; rfl
  | cons a l ih =>
    intro h s
    rw [List.foldl_cons, ih (fun s b hb => h s b (by simp [hb])), h s a (by simp)]

theorem andThen_none (p : PipeOut) (f : World → PipeOut) (h : p.err = none) :
    p.andThen f =
      { w := (f p.w).w, tr := p.tr ++ (f p.w).tr, err := (f p.w).err } := by
  simp [PipeOut.andThen, h]

theorem andThen_some (p : PipeOut) (f : World → PipeOut) (e : Exn) (h : p.err = some e) :
    p.andThen f = p := by
  simp [PipeOut.andThen, h]

theorem andThen_w_preserve {β : Type} (g : World → β) (p : PipeOut) (f : World → PipeOut)
    (hf : ∀ w, g (f w).w = g w) : g ((p.andThen f).w) = g p.w := by
  cases hp : p.err with
  | none => rw [andThen_none p f hp]; exact hf p.w
  | some e => rw [andThen_some p f e hp]

theorem andThen_tr_mono (p : PipeOut) (f : World → PipeOut) (e : Event)
    (he : e ∈ p.tr) : e ∈ (p.andThen f).tr := by
  cases hp : p.err with
  | none => rw [andThen_none p f hp]; simp [he]
  | some ex => rw [andThen_some p f ex hp]; exact he

-- ------------------------------------------------------------
-- updateObj / removeObjByName basics
-- ------------------------------------------------------------

theorem updateObj_collections (w : World) (n : String) (f : Obj → Obj) :
    (updateObj w n f).collections = w.collections := rfl

theorem updateObj_nodeGroups (w : World) (n : String) (f : Obj → Obj) :
    (updateObj w n f).nodeGroups = w.nodeGroups := rfl

theorem updateObj_render (w : World) (n : String) (f : Obj → Obj) :
    (updateObj w n f).render = w.render := rfl

theorem updateObj_collNames (w : World) (n : String) (f : Obj → Obj) :
    collNames (updateObj w n f) = collNames w := rfl

theorem find?_name_map (l : List Obj) (g : Obj → Obj) (n : String)
    (hname : ∀ o, (g o).name = o.name) :
    (l.map g).find? (fun o => o.name == n) =
      (l.find? (fun o => o.name == n)).map g := by
  induction l with
  | nil => rfl
  | cons o l ih =>
    simp only [List.map_cons, List.find?_cons]
    rw [hname o]
    cases h : (o.name == n) <;> simp [h, ih]

theorem findObj_updateObj (w : World) (m n : String) (f : Obj → Obj)
    (hname : ∀ o, (f o).name = o.name) :
    findObj (updateObj w m f) n =
      (findObj w n).map (fun o => if o.name = m then f o else o) := by
  unfold findObj updateObj
  exact find?_name_map w.objects _ n
    (fun o => by by_cases h : o.name = m <;> simp [h, hname])

theorem objHideRender_updateObj_pres (w : World) (m n : String) (f : Obj → Obj)
    (hname : ∀ o, (f o).name = o.name)
    (hhr : ∀ o, (f o).hideRender = o.hideRender) :
    objHideRender (updateObj w m f) n = objHideRender w n := by
  unfold objHideRender
  rw [findObj_updateObj w m n f hname]
  cases findObj w n with
  | none => rfl
  | some o => by_cases hq : o.name = m <;> simp [hq, hhr]

theorem objHideRender_updateObj_other (w : World) (m n : String) (f : Obj → Obj)
    (hne : n ≠ m) (hname : ∀ o, (f o).name = o.name) :
    objHideRender (updateObj w m f) n = objHideRender w n := by
  unfold objHideRender
  rw [findObj_updateObj w m n f hname]
  cases h : findObj w n with
  | none => rfl
  | some o =>
    have hon : o.name = n := by
      have := List.find?_some h
      simpa using this
    simp [hon, hne]

theorem objHideRender_isSome_updateObj (w : World) (m n : String) (f : Obj → Obj)
    (hname : ∀ o, (f o).name = o.name) :
    (objHideRender (updateObj w m f) n).isSome = (objHideRender w n).isSome := by
  unfold objHideRender
  rw [findObj_updateObj w m n f hname]
  cases findObj w n <;> rfl

theorem objHideRender_updateObj_set (w : World) (n : String) (b : Bool) :
    objHideRender (updateObj w n (setHideRender b)) n =
      (objHideRender w n).map (fun _ => b) := by
  unfold objHideRender
  rw [findObj_updateObj w n n (setHideRender b) (fun o => rfl)]
  cases h : findObj w n with
  | none => rfl
  | some o =>
    have hon : o.name = n := by
      have := List.find?_some h
      simpa using this
    simp [hon, setHideRender]

-- ------------------------------------------------------------
-- removeObjByName / append basics
-- ------------------------------------------------------------

theorem collNames_map_namePres (cols : List Collection) (f : Collection → Collection)
    (h : ∀ c, (f c).name = c.name) :
    (cols.map f).map (fun c => c.name) = cols.map (fun c => c.name) := by
  induction cols with
  | nil => rfl
  | cons c l ih => simp [h, ih]

theorem removeObjByName_collNames (w : World) (n : String) :
    collNames (removeObjByName w n) = collNames w := by
  unfold collNames removeObjByName
  exact collNames_map_namePres w.collections _ (fun c => rfl)

theorem removeObjByName_nodeGroups (w : World) (n : String) :
    (removeObjByName w n).nodeGroups = w.nodeGroups := rfl

theorem removeObjByName_render (w : World) (n : String) :
    (removeObjByName w n).render = w.render := rfl

theorem find?_filter_keep (l : List Obj) (p q : Obj → Bool)
    (h : ∀ o, p o = true → q o = true) :
    (l.filter q).find? p = l.find? p := by
  induction l with
  | nil => rfl
  | cons o l ih =>
    by_cases hq : q o = true
    · simp only [List.filter_cons, hq, if_true, List.find?_cons]
      cases hp : p o <;> simp [hp, ih]
    · have hp : p o = false := by
        cases hpo : p o with
        | true => exact absurd (h o hpo) hq
        | false => rfl
      simp only [List.filter_cons, hq, if_false, List.find?_cons, hp]
      exact ih

theorem find_hr_filter (l : List Obj) (m n : String) (hne : n ≠ m) :
    ((l.filter (fun o => o.name ≠ m)).find? (fun o => o.name == n)) =
      l.find? (fun o => o.name == n) := by
  apply find?_filter_keep
  intro o hpo
  have ho : o.name = n := by simpa using hpo
  simp [ho, hne]

theorem find_hr_append (l : List Obj) (x : Obj) (n : String) (hne : n ≠ x.name) :
    ((l ++ [x]).find? (fun o => o.name == n)) = l.find? (fun o => o.name == n) := by
  have hb : (x.name == n) = false := by
    cases h : x.name == n with
    | false => rfl
    | true => exact absurd (by simpa using h : x.name = n).symm hne
  induction l with
  | nil => simp [List.find?, hb]
  | cons o l ih =>
    simp only [List.cons_append, List.find?_cons]
    cases hp : (o.name == n) <;> simp [hp, ih]

theorem objHideRender_removeObjByName (w : World) (m n : String) (hne : n ≠ m) :
    objHideRender (removeObjByName w m) n = objHideRender w n := by
  unfold objHideRender findObj removeObjByName
  dsimp only
  rw [find_hr_filter]
  exact hne

-- ------------------------------------------------------------
-- duplicate_object / bounding box: frame lemmas
-- ------------------------------------------------------------

theorem duplicate_object_collNames (w : World) (a b c : String) :
    collNames (duplicate_object w a b c) = collNames w := by
  unfold duplicate_object
  cases findObj w a with
  | none => rfl
  | some o =>
    dsimp only
    split
    case isTrue h =>
      unfold collNames removeObjByName
      dsimp only
      simp only [List.map_map]
      exact mapCongrMem _ _ _ (fun col _ => by
        simp only [Function.comp_apply]
        split <;> rfl)
    case isFalse h =>
      unfold collNames
      dsimp only
      simp only [List.map_map]
      exact mapCongrMem _ _ _ (fun col _ => by
        simp only [Function.comp_apply]
        split <;> rfl)

theorem duplicate_object_nodeGroups (w : World) (a b c : String) :
    (duplicate_object w a b c).nodeGroups = w.nodeGroups := by
  unfold duplicate_object
  cases findObj w a with
  | none => rfl
  | some o =>
    dsimp only
    split <;> rfl

theorem duplicate_object_render (w : World) (a b c : String) :
    (duplicate_object w a b c).render = w.render := by
  unfold duplicate_object
  cases findObj w a with
  | none => rfl
  | some o =>
    dsimp only
    split <;> rfl

theorem duplicate_object_objHideRender (w : World) (a b c n : String)
    (hne : n ≠ a ++ b) :
    objHideRender (duplicate_object w a b c) n = objHideRender w n := by
  unfold duplicate_object
  cases findObj w a with
  | none => rfl
  | some o =>
    dsimp only
    split
    case isTrue h =>
      unfold objHideRender findObj removeObjByName
      dsimp only
      rw [find_hr_append, find_hr_filter]
      · exact hne
      · exact hne
    case isFalse h =>
      unfold objHideRender findObj
      dsimp only
      rw [find_hr_append]
      exact hne

theorem create_bbox_collNames (w : World) (objNames : List String) (c : String) :
    collNames (create_combined_bounding_box w objNames c) = collNames w := by
  unfold create_combined_bounding_box
  split
  · rfl
  · dsimp only
    split
    case isTrue h =>
      unfold collNames removeObjByName
      dsimp only
      simp only [List.map_map]
      exact mapCongrMem _ _ _ (fun col _ => by
        simp only [Function.comp_apply]
        split <;> rfl)
    case isFalse h =>
      unfold collNames
      dsimp only
      simp only [List.map_map]
      exact mapCongrMem _ _ _ (fun col _ => by
        simp only [Function.comp_apply]
        split <;> rfl)

theorem create_bbox_nodeGroups (w : World) (objNames : List String) (c : String) :
    (create_combined_bounding_box w objNames c).nodeGroups = w.nodeGroups := by
  unfold create_combined_bounding_box
  split
  · rfl
  · dsimp only
    split <;> rfl

theorem create_bbox_render (w : World) (objNames : List String) (c : String) :
    (create_combined_bounding_box w objNames c).render = w.render := by
  unfold create_combined_bounding_box
  split
  · rfl
  · dsimp only
    split <;> rfl

theorem create_bbox_objHideRender (w : World) (objNames : List String) (c n : String)
    (hne : n ≠ "_boundingbox_bake") :
    objHideRender (create_combined_bounding_box w objNames c) n = objHideRender w n := by
  unfold create_combined_bounding_box
  split
  · rfl
  · dsimp only
    split
    case isTrue h =>
      unfold objHideRender findObj removeObjByName
      dsimp only
      rw [find_hr_append, find_hr_filter]
      · exact hne
      · exact hne
    case isFalse h =>
      unfold objHideRender findObj
      dsimp only
      rw [find_hr_append]
      exact hne

-- ------------------------------------------------------------
-- Field preservation of the per-object updates
-- ------------------------------------------------------------

theorem set_active_name (o : Obj) (s : String) :
    (set_active_color_attribute o s).name = o.name := by
  unfold set_active_color_attribute
  split <;> rfl

theorem set_active_hideRender (o : Obj) (s : String) :
    (set_active_color_attribute o s).hideRender = o.hideRender := by
  unfold set_active_color_attribute
  split <;> rfl

theorem ensure_color_name (o : Obj) (s : String) :
    (ensure_color_attribute o s).name = o.name := by
  unfold ensure_color_attribute
  split <;> rfl

theorem ensure_color_hideRender (o : Obj) (s : String) :
    (ensure_color_attribute o s).hideRender = o.hideRender := by
  unfold ensure_color_attribute
  split <;> rfl

theorem foldl_ensure_color_name (l : List String) (o : Obj) :
    (l.foldl ensure_color_attribute o).name = o.name :=
  foldl_preserve_mem (fun o => o.name) ensure_color_attribute l
    (fun s a _ => ensure_color_name s a) o

theorem foldl_ensure_color_hideRender (l : List String) (o : Obj) :
    (l.foldl ensure_color_attribute o).hideRender = o.hideRender :=
  foldl_preserve_mem (fun o => o.hideRender) ensure_color_attribute l
    (fun s a _ => ensure_color_hideRender s a) o

theorem clean_name (f : String → Bool) (o : Obj) :
    (clean_bake_object_modifiers f o).name = o.name := rfl

theorem clean_hideRender (f : String → Bool) (o : Obj) :
    (clean_bake_object_modifiers f o).hideRender = o.hideRender := rfl

theorem ensure_dt_name (o : Obj) (s : String) :
    (ensure_datatransfer o s).name = o.name := by
  unfold ensure_datatransfer
  split <;> rfl

theorem ensure_dt_hideRender (o : Obj) (s : String) :
    (ensure_datatransfer o s).hideRender = o.hideRender := by
  unfold ensure_datatransfer
  split <;> rfl

theorem remove_unused_name (o : Obj) :
    (remove_unused_target_color_attributes o).name = o.name := rfl

theorem remove_unused_hideRender (o : Obj) :
    (remove_unused_target_color_attributes o).hideRender = o.hideRender := rfl

-- ------------------------------------------------------------
-- Per-step frame lemmas
-- ------------------------------------------------------------

theorem dup_stepW_collNames (w : World) (n : String) :
    collNames (dup_stepW w n) = collNames w := by
  unfold dup_stepW
  rw [duplicate_object_collNames]
  rfl

theorem dup_stepW_nodeGroups (w : World) (n : String) :
    (dup_stepW w n).nodeGroups = w.nodeGroups := by
  unfold dup_stepW
  rw [duplicate_object_nodeGroups]
  rfl

theorem dup_stepW_render (w : World) (n : String) :
    (dup_stepW w n).render = w.render := by
  unfold dup_stepW
  rw [duplicate_object_render]
  rfl

theorem dup_stepW_objHideRender (w : World) (m n : String) (hne : n ≠ m ++ BAKE_SUFFIX) :
    objHideRender (dup_stepW w m) n = objHideRender w n := by
  unfold dup_stepW
  rw [duplicate_object_objHideRender _ _ _ _ _ hne,
    objHideRender_updateObj_pres _ _ _ _
      (fun o => ensure_color_name o VC_PREVIEW) (fun o => ensure_color_hideRender o VC_PREVIEW),
    objHideRender_updateObj_pres _ _ _ _
      (fun o => ensure_color_name o VC_PACKED) (fun o => ensure_color_hideRender o VC_PACKED)]

theorem prep_stepW_collNames (env : Env) (w : World) (n : String) :
    collNames (prep_stepW env w n) = collNames w := rfl

theorem prep_stepW_nodeGroups (env : Env) (w : World) (n : String) :
    (prep_stepW env w n).nodeGroups = w.nodeGroups := rfl

theorem prep_stepW_objHideRender (env : Env) (w : World) (m n : String) :
    objHideRender (prep_stepW env w m) n = objHideRender w n := by
  unfold prep_stepW
  exact objHideRender_updateObj_pres _ _ _ _
    (fun o => by rw [clean_name, foldl_ensure_color_name])
    (fun o => by rw [clean_hideRender, foldl_ensure_color_hideRender])

theorem bake_call_w_collNames (env : Env) (fp : FailPoint) (bt cn : String)
    (objNames : List String) (w : World) :
    collNames (bake_call env fp bt cn objNames w).w = collNames w := by
  unfold bake_call
  dsimp only
  apply foldl_preserve_mem collNames
  intro s a _
  rfl

theorem bake_call_w_nodeGroups (env : Env) (fp : FailPoint) (bt cn : String)
    (objNames : List String) (w : World) :
    (bake_call env fp bt cn objNames w).w.nodeGroups = w.nodeGroups := by
  unfold bake_call
  dsimp only
  induction objNames generalizing w with
  | nil => rfl
  | cons a l ih => exact ih _

theorem bake_call_w_objHideRender (env : Env) (fp : FailPoint) (bt cn : String)
    (objNames : List String) (w : World) (n : String) :
    objHideRender (bake_call env fp bt cn objNames w).w n = objHideRender w n := by
  unfold bake_call
  dsimp only
  apply foldl_preserve_mem (fun x => objHideRender x n)
  intro s a _
  exact objHideRender_updateObj_pres _ _ _ _
    (fun o => set_active_name o cn) (fun o => set_active_hideRender o cn)

theorem disable_fold_collNames (l : List String) (p : World × List (String × Bool)) :
    collNames (l.foldl disable_step p).1 = collNames p.1 := by
  induction l generalizing p with
  | nil => rfl
  | cons a l ih => exact ih _

theorem disable_fold_nodeGroups (l : List String) (p : World × List (String × Bool)) :
    (l.foldl disable_step p).1.nodeGroups = p.1.nodeGroups := by
  induction l generalizing p with
  | nil => rfl
  | cons a l ih => exact ih _

theorem restore_collNames (w : World) (st : List (String × Bool)) :
    collNames (restore_render_state w st) = collNames w := by
  unfold restore_render_state
  apply foldl_preserve_mem collNames
  intro s a _
  rfl

theorem restore_nodeGroups (w : World) (st : List (String × Bool)) :
    (restore_render_state w st).nodeGroups = w.nodeGroups := by
  induction st generalizing w with
  | nil => rfl
  | cons a st ih => exact ih _

theorem objHideRender_updateObj_modifiers (w : World) (m n : String)
    (g : Obj → List Modifier) :
    objHideRender (updateObj w m (fun o => { o with modifiers := g o })) n =
      objHideRender w n :=
  objHideRender_updateObj_pres _ _ _ _ (fun _ => rfl) (fun _ => rfl)

theorem packer_step_collNames (env : Env) (p : PipeOut) (a : String) :
    collNames (packer_step env p a).w = collNames p.w := by
  unfold packer_step
  cases hp : p.err with
  | some e => rfl
  | none =>
    dsimp only
    split <;> rfl

theorem packer_step_nodeGroups (env : Env) (p : PipeOut) (a : String) :
    (packer_step env p a).w.nodeGroups = p.w.nodeGroups := by
  unfold packer_step
  cases hp : p.err with
  | some e => rfl
  | none =>
    dsimp only
    split <;> rfl

theorem packer_step_objHideRender (env : Env) (p : PipeOut) (a n : String) :
    objHideRender (packer_step env p a).w n = objHideRender p.w n := by
  unfold packer_step
  cases hp : p.err with
  | some e => rfl
  | none =>
    dsimp only
    split
    · exact objHideRender_updateObj_modifiers _ _ _ _
    · rw [objHideRender_updateObj_pres _ _ _ _
            (fun o => set_active_name o VC_AO) (fun o => set_active_hideRender o VC_AO),
          objHideRender_updateObj_modifiers, objHideRender_updateObj_modifiers]

theorem dt_step_collNames (p : PipeOut) (q : String × String) :
    collNames (dt_step p q).w = collNames p.w := by
  unfold dt_step
  cases hp : p.err with
  | some e => rfl
  | none =>
    dsimp only
    split
    · split <;> rfl
    · rfl

theorem dt_step_nodeGroups (p : PipeOut) (q : String × String) :
    (dt_step p q).w.nodeGroups = p.w.nodeGroups := by
  unfold dt_step
  cases hp : p.err with
  | some e => rfl
  | none =>
    dsimp only
    split
    · split <;> rfl
    · rfl

theorem dt_step_objHideRender (p : PipeOut) (q : String × String) (n : String) :
    objHideRender (dt_step p q).w n = objHideRender p.w n := by
  unfold dt_step
  cases hp : p.err with
  | some e => rfl
  | none =>
    dsimp only
    have h1 : objHideRender (updateObj p.w q.1
        (fun o => remove_unused_target_color_attributes (ensure_datatransfer o q.2))) n =
        objHideRender p.w n :=
      objHideRender_updateObj_pres _ _ _ _
        (fun o => by rw [remove_unused_name, ensure_dt_name])
        (fun o => by rw [remove_unused_hideRender, ensure_dt_hideRender])
    split
    · split
      · dsimp only
        rw [objHideRender_updateObj_modifiers, h1]
      · dsimp only
        rw [objHideRender_updateObj_modifiers, h1]
    · exact h1

-- ------------------------------------------------------------
-- Per-stage frame lemmas
-- ------------------------------------------------------------

theorem stage_duplicate_collNames (originals : List String) (w : World) :
    collNames (stage_duplicate originals w).w = collNames w := by
  unfold stage_duplicate
  dsimp only
  have h : ∀ (l : List String) (p : World × List Event),
      collNames (l.foldl dup_step p).1 = collNames p.1 := by
    intro l
    induction l with
    | nil => intro p; rfl
    | cons a l ih =>
      intro p
      rw [List.foldl_cons, ih]
      show collNames (dup_stepW p.1 a) = collNames p.1
      exact dup_stepW_collNames p.1 a
  exact h originals (w, [])

theorem stage_duplicate_nodeGroups (originals : List String) (w : World) :
    (stage_duplicate originals w).w.nodeGroups = w.nodeGroups := by
  unfold stage_duplicate
  dsimp only
  have h : ∀ (l : List String) (p : World × List Event),
      (l.foldl dup_step p).1.nodeGroups = p.1.nodeGroups := by
    intro l
    induction l with
    | nil => intro p; rfl
    | cons a l ih =>
      intro p
      rw [List.foldl_cons, ih]
      show (dup_stepW p.1 a).nodeGroups = p.1.nodeGroups
      exact dup_stepW_nodeGroups p.1 a
  exact h originals (w, [])

theorem stage_prep_collNames (env : Env) (bakeObjs : List String) (w : World) :
    collNames (stage_prep env bakeObjs w).w = collNames w := by
  unfold stage_prep
  dsimp only
  have h : ∀ (l : List String) (p : World × List Event),
      collNames (l.foldl (prep_step env) p).1 = collNames p.1 := by
    intro l
    induction l with
    | nil => intro p; rfl
    | cons a l ih => intro p; exact ih _
  exact h bakeObjs (w, [])

theorem stage_prep_nodeGroups (env : Env) (bakeObjs : List String) (w : World) :
    (stage_prep env bakeObjs w).w.nodeGroups = w.nodeGroups := by
  unfold stage_prep
  dsimp only
  have h : ∀ (l : List String) (p : World × List Event),
      (l.foldl (prep_step env) p).1.nodeGroups = p.1.nodeGroups := by
    intro l
    induction l with
    | nil => intro p; rfl
    | cons a l ih => intro p; exact ih _
  exact h bakeObjs (w, [])

theorem stage_curvature_collNames (env : Env) (bakeObjs : List String) (w : World) :
    collNames (stage_curvature env bakeObjs w).w = collNames w := by
  unfold stage_curvature
  exact bake_call_w_collNames env _ _ _ bakeObjs _

theorem stage_curvature_nodeGroups (env : Env) (bakeObjs : List String) (w : World) :
    (stage_curvature env bakeObjs w).w.nodeGroups = w.nodeGroups := by
  unfold stage_curvature
  exact bake_call_w_nodeGroups env _ _ _ bakeObjs _

theorem stage_ao_collNames (env : Env) (originals bakeObjs : List String) (w : World) :
    collNames (stage_ao env originals bakeObjs w).w = collNames w := by
  unfold stage_ao disable_render_temporarily
  dsimp only
  rw [restore_collNames, bake_call_w_collNames, disable_fold_collNames]
  rfl

theorem stage_ao_nodeGroups (env : Env) (originals bakeObjs : List String) (w : World) :
    (stage_ao env originals bakeObjs w).w.nodeGroups = w.nodeGroups := by
  unfold stage_ao disable_render_temporarily
  dsimp only
  rw [restore_nodeGroups, bake_call_w_nodeGroups, disable_fold_nodeGroups]

theorem stage_bbox_collNames (bakeObjs : List String) (w : World) :
    collNames (stage_bbox bakeObjs w).w = collNames w := by
  unfold stage_bbox
  exact create_bbox_collNames w bakeObjs BAKE_COLLECTION

theorem stage_bbox_nodeGroups (bakeObjs : List String) (w : World) :
    (stage_bbox bakeObjs w).w.nodeGroups = w.nodeGroups := by
  unfold stage_bbox
  exact create_bbox_nodeGroups w bakeObjs BAKE_COLLECTION

theorem stage_gradient_collNames (env : Env) (bakeObjs : List String) (w : World) :
    collNames (stage_gradient env bakeObjs w).w = collNames w := by
  unfold stage_gradient
  dsimp only
  rw [bake_call_w_collNames]
  have h : ∀ (l : List String) (w2 : World),
      collNames (l.foldl (fun acc n => updateObj acc n
        (fun o => { o with materials := [MAT_GRADIENT] })) w2) = collNames w2 := by
    intro l
    induction l with
    | nil => intro w2; rfl
    | cons a l ih => intro w2; exact ih _
  exact h bakeObjs w

theorem stage_gradient_nodeGroups (env : Env) (bakeObjs : List String) (w : World) :
    (stage_gradient env bakeObjs w).w.nodeGroups = w.nodeGroups := by
  unfold stage_gradient
  dsimp only
  rw [bake_call_w_nodeGroups]
  have h : ∀ (l : List String) (w2 : World),
      (l.foldl (fun acc n => updateObj acc n
        (fun o => { o with materials := [MAT_GRADIENT] })) w2).nodeGroups = w2.nodeGroups := by
    intro l
    induction l with
    | nil => intro w2; rfl
    | cons a l ih => intro w2; exact ih _
  exact h bakeObjs w

theorem packing_fold_collNames (env : Env) (l : List String) (p : PipeOut) :
    collNames (l.foldl (packer_step env) p).w = collNames p.w := by
  induction l generalizing p with
  | nil => rfl
  | cons a l ih =>
    rw [List.foldl_cons, ih]
    exact packer_step_collNames env p a

theorem packing_fold_nodeGroups (env : Env) (l : List String) (p : PipeOut) :
    (l.foldl (packer_step env) p).w.nodeGroups = p.w.nodeGroups := by
  induction l generalizing p with
  | nil => rfl
  | cons a l ih =>
    rw [List.foldl_cons, ih]
    exact packer_step_nodeGroups env p a

theorem stage_packing_collNames (env : Env) (bakeObjs : List String) (w : World) :
    collNames (stage_packing env bakeObjs w).w = collNames w := by
  unfold stage_packing
  split
  · exact packing_fold_collNames env bakeObjs _
  · rfl

theorem stage_packing_nodeGroups (env : Env) (bakeObjs : List String) (w : World) :
    (stage_packing env bakeObjs w).w.nodeGroups = w.nodeGroups := by
  unfold stage_packing
  split
  · exact packing_fold_nodeGroups env bakeObjs _
  · rfl

theorem dt_fold_collNames (l : List (String × String)) (p : PipeOut) :
    collNames (l.foldl dt_step p).w = collNames p.w := by
  induction l generalizing p with
  | nil => rfl
  | cons a l ih =>
    rw [List.foldl_cons, ih]
    exact dt_step_collNames p a

theorem dt_fold_nodeGroups (l : List (String × String)) (p : PipeOut) :
    (l.foldl dt_step p).w.nodeGroups = p.w.nodeGroups := by
  induction l generalizing p with
  | nil => rfl
  | cons a l ih =>
    rw [List.foldl_cons, ih]
    exact dt_step_nodeGroups p a

theorem stage_dt_collNames (originals : List String) (w : World) :
    collNames (stage_dt originals w).w = collNames w := by
  unfold stage_dt
  exact dt_fold_collNames _ _

theorem stage_dt_nodeGroups (originals : List String) (w : World) :
    (stage_dt originals w).w.nodeGroups = w.nodeGroups := by
  unfold stage_dt
  exact dt_fold_nodeGroups _ _

theorem stage_finalize_collNames (originals : List String) (w : World) :
    collNames (stage_finalize originals w).w = collNames w := by
  unfold stage_finalize
  dsimp only
  induction originals generalizing w with
  | nil => rfl
  | cons a l ih => exact ih _

theorem stage_finalize_nodeGroups (originals : List String) (w : World) :
    (stage_finalize originals w).w.nodeGroups = w.nodeGroups := by
  unfold stage_finalize
  dsimp only
  induction originals generalizing w with
  | nil => rfl
  | cons a l ih => exact ih _

theorem pipeline_body_collNames (env : Env) (originals : List String) (w : World) :
    collNames (pipeline_body env originals w).w = collNames w := by
  unfold pipeline_body
  rw [andThen_w_preserve collNames _ _ (fun w2 => stage_finalize_collNames originals w2),
      andThen_w_preserve collNames _ _ (fun w2 => stage_dt_collNames originals w2),
      andThen_w_preserve collNames _ _
        (fun w2 => stage_packing_collNames env (originals.map (fun n => n ++ BAKE_SUFFIX)) w2),
      andThen_w_preserve collNames _ _
        (fun w2 => stage_gradient_collNames env (originals.map (fun n => n ++ BAKE_SUFFIX)) w2),
      andThen_w_preserve collNames _ _
        (fun w2 => stage_bbox_collNames (originals.map (fun n => n ++ BAKE_SUFFIX)) w2),
      andThen_w_preserve collNames _ _
        (fun w2 => stage_ao_collNames env originals (originals.map (fun n => n ++ BAKE_SUFFIX)) w2),
      andThen_w_preserve collNames _ _
        (fun w2 => stage_curvature_collNames env (originals.map (fun n => n ++ BAKE_SUFFIX)) w2),
      andThen_w_preserve collNames _ _
        (fun w2 => stage_prep_collNames env (originals.map (fun n => n ++ BAKE_SUFFIX)) w2),
      stage_duplicate_collNames]

theorem pipeline_body_nodeGroups (env : Env) (originals : List String) (w : World) :
    (pipeline_body env originals w).w.nodeGroups = w.nodeGroups := by
  unfold pipeline_body
  rw [andThen_w_preserve (fun x : World => x.nodeGroups) _ _
        (fun w2 => stage_finalize_nodeGroups originals w2),
      andThen_w_preserve (fun x : World => x.nodeGroups) _ _
        (fun w2 => stage_dt_nodeGroups originals w2),
      andThen_w_preserve (fun x : World => x.nodeGroups) _ _
        (fun w2 => stage_packing_nodeGroups env (originals.map (fun n => n ++ BAKE_SUFFIX)) w2),
      andThen_w_preserve (fun x : World => x.nodeGroups) _ _
        (fun w2 => stage_gradient_nodeGroups env (originals.map (fun n => n ++ BAKE_SUFFIX)) w2),
      andThen_w_preserve (fun x : World => x.nodeGroups) _ _
        (fun w2 => stage_bbox_nodeGroups (originals.map (fun n => n ++ BAKE_SUFFIX)) w2),
      andThen_w_preserve (fun x : World => x.nodeGroups) _ _
        (fun w2 => stage_ao_nodeGroups env originals (originals.map (fun n => n ++ BAKE_SUFFIX)) w2),
      andThen_w_preserve (fun x : World => x.nodeGroups) _ _
        (fun w2 => stage_curvature_nodeGroups env (originals.map (fun n => n ++ BAKE_SUFFIX)) w2),
      andThen_w_preserve (fun x : World => x.nodeGroups) _ _
        (fun w2 => stage_prep_nodeGroups env (originals.map (fun n => n ++ BAKE_SUFFIX)) w2),
      stage_duplicate_nodeGroups]

-- ------------------------------------------------------------
-- load_from_blend characterization
-- ------------------------------------------------------------

theorem load_from_blend_error (env : Env) (w : World) (h : env.blendFileExists = false) :
    load_from_blend env w =
      Except.error (Exn.fileNotFound "VertexBaker.blend not found next to add-on") := by
  unfold load_from_blend
  rw [if_pos h]

theorem load_from_blend_ok_eq (env : Env) (w : World) (h : env.blendFileExists = true) :
    load_from_blend env w = Except.ok { w with
      materials := w.materials ++ [MAT_CURVATURE, MAT_GRADIENT].filter
        (fun m => m ∉ w.materials ∧ m ∈ env.blendMaterials),
      nodeGroups := w.nodeGroups ++ ["VC_Processor", "VC_Packer"].filter
        (fun ng => ng ∉ w.nodeGroups ∧ ng ∈ env.blendNodeGroups) } := by
  have hm : MAT_GRADIENT ≠ MAT_CURVATURE := by decide
  have hn : ("VC_Packer" : String) ≠ "VC_Processor" := by decide
  unfold load_from_blend
  rw [if_neg (by simp [h])]
  simp only [List.foldl_cons, List.foldl_nil]
  split_ifs with h1 h2 h3 h4 h2 h3 h4 h3 h4 h4 <;>
    simp_all [List.filter_cons, List.filter_nil, hm, hn]

-- ------------------------------------------------------------
-- ensure_collection
-- ------------------------------------------------------------

theorem ensure_collection_render (w : World) (nm : String) :
    (ensure_collection w nm).render = w.render := by
  unfold ensure_collection
  split <;> rfl

theorem ensure_collection_objects (w : World) (nm : String) :
    (ensure_collection w nm).objects = w.objects := by
  unfold ensure_collection
  split <;> rfl

theorem ensure_collection_nodeGroups (w : World) (nm : String) :
    (ensure_collection w nm).nodeGroups = w.nodeGroups := by
  unfold ensure_collection
  split <;> rfl

theorem ensure_collection_mem (w : World) (nm : String) :
    nm ∈ collNames (ensure_collection w nm) := by
  unfold ensure_collection collNames
  split
  case isTrue h =>
    simp only [List.any_eq_true] at h
    obtain ⟨c, hc, hcn⟩ := h
    have hcn' : c.name = nm := by simpa using hcn
    dsimp only
    simp only [List.mem_map]
    refine ⟨_, ⟨c, hc, rfl⟩, ?_⟩
    rw [if_pos hcn']
    exact hcn'
  case isFalse h =>
    dsimp only
    simp

theorem ensure_visible_render (w : World) (nm : String) :
    (ensure_collection_visible_and_editable w nm).render = w.render := rfl

theorem ensure_visible_objects (w : World) (nm : String) :
    (ensure_collection_visible_and_editable w nm).objects = w.objects := rfl

theorem ensure_visible_nodeGroups (w : World) (nm : String) :
    (ensure_collection_visible_and_editable w nm).nodeGroups = w.nodeGroups := rfl

theorem ensure_visible_collNames (w : World) (nm : String) :
    collNames (ensure_collection_visible_and_editable w nm) = collNames w := by
  unfold ensure_collection_visible_and_editable collNames
  dsimp only
  simp only [List.map_map]
  exact mapCongrMem _ _ _ (fun col _ => by
    simp only [Function.comp_apply]
    split <;> rfl)

theorem hideBake_mem (cols : List Collection) (h : BAKE_COLLECTION ∈ cols.map (fun c => c.name)) :
    ∃ c2 ∈ cols.map (fun c =>
        if c.name = BAKE_COLLECTION then { c with hideViewport := true } else c),
      c2.name = BAKE_COLLECTION ∧ c2.hideViewport = true := by
  simp only [List.mem_map] at h
  obtain ⟨c, hc, hcn⟩ := h
  refine ⟨_, List.mem_map_of_mem _ hc, ?_⟩
  rw [if_pos hcn]
  exact ⟨hcn, rfl⟩

theorem mem_after_load_mat (w : World) (env : Env) (m : String)
    (hm : m ∈ [MAT_CURVATURE, MAT_GRADIENT])
    (h : m ∈ w.materials ∨ m ∈ env.blendMaterials) :
    m ∈ w.materials ++ [MAT_CURVATURE, MAT_GRADIENT].filter
      (fun x => x ∉ w.materials ∧ x ∈ env.blendMaterials) := by
  by_cases h1 : m ∈ w.materials
  · exact List.mem_append_left _ h1
  · refine List.mem_append_right _ ?_
    rw [List.mem_filter]
    exact ⟨hm, by simp [h1, h.resolve_left h1]⟩

theorem mem_after_load_ng (w : World) (env : Env) (g : String)
    (hg : g ∈ ["VC_Processor", "VC_Packer"])
    (h : g ∈ w.nodeGroups ∨ g ∈ env.blendNodeGroups) :
    g ∈ w.nodeGroups ++ ["VC_Processor", "VC_Packer"].filter
      (fun x => x ∉ w.nodeGroups ∧ x ∈ env.blendNodeGroups) := by
  by_cases h1 : g ∈ w.nodeGroups
  · exact List.mem_append_left _ h1
  · refine List.mem_append_right _ ?_
    rw [List.mem_filter]
    exact ⟨hg, by simp [h1, h.resolve_left h1]⟩

-- ------------------------------------------------------------
-- Success-path stage specifications
-- ------------------------------------------------------------

theorem andThen_tr_none (p : PipeOut) (f : World → PipeOut) (h : p.err = none) :
    (p.andThen f).tr = p.tr ++ (f p.w).tr := by
  rw [andThen_none _ _ h]

theorem andThen_w_none (p : PipeOut) (f : World → PipeOut) (h : p.err = none) :
    (p.andThen f).w = (f p.w).w := by
  rw [andThen_none _ _ h]

theorem andThen_err_none (p : PipeOut) (f : World → PipeOut) (h : p.err = none) :
    (p.andThen f).err = (f p.w).err := by
  rw [andThen_none _ _ h]

theorem stage_duplicate_spec (originals : List String) (w : World) :
    stage_duplicate originals w =
      { w := originals.foldl dup_stepW w,
        tr := originals.map (fun n => Event.duplicate n (n ++ BAKE_SUFFIX)),
        err := none } := by
  unfold stage_duplicate
  rw [foldl_pair_trace dup_stepW (fun n => Event.duplicate n (n ++ BAKE_SUFFIX))
      dup_step (fun p a => rfl)]
  dsimp only
  rw [List.nil_append]

theorem stage_prep_spec (env : Env) (bakeObjs : List String) (w : World) :
    stage_prep env bakeObjs w =
      { w := bakeObjs.foldl (prep_stepW env) w,
        tr := bakeObjs.map Event.clean,
        err := none } := by
  unfold stage_prep
  rw [foldl_pair_trace (prep_stepW env) Event.clean (prep_step env) (fun p a => rfl)]
  dsimp only
  rw [List.nil_append]

theorem stage_curvature_err (env : Env) (bakeObjs : List String) (w : World) :
    (stage_curvature env bakeObjs w).err =
      (if env.failAt = some FailPoint.bakeCurvature then some env.failExn else none) := rfl

theorem stage_curvature_tr (env : Env) (bakeObjs : List String) (w : World) :
    ∃ s, (stage_curvature env bakeObjs w).tr = [Event.bakePass "DIFFUSE" VC_CURVATURE s] :=
  ⟨_, rfl⟩

theorem stage_ao_err (env : Env) (originals bakeObjs : List String) (w : World) :
    (stage_ao env originals bakeObjs w).err =
      (if env.failAt = some FailPoint.bakeAO then some env.failExn else none) := rfl

theorem stage_bbox_err (bakeObjs : List String) (w : World) :
    (stage_bbox bakeObjs w).err = none := rfl

theorem stage_bbox_tr (bakeObjs : List String) (w : World) :
    (stage_bbox bakeObjs w).tr = [Event.boundingBox] := rfl

theorem stage_gradient_err (env : Env) (bakeObjs : List String) (w : World) :
    (stage_gradient env bakeObjs w).err =
      (if env.failAt = some FailPoint.bakeGradient then some env.failExn else none) := rfl

theorem stage_gradient_tr (env : Env) (bakeObjs : List String) (w : World) :
    ∃ s, (stage_gradient env bakeObjs w).tr = [Event.bakePass "DIFFUSE" VC_GRADIENT s] :=
  ⟨_, rfl⟩

theorem stage_finalize_err (originals : List String) (w : World) :
    (stage_finalize originals w).err = none := rfl

theorem stage_finalize_tr (originals : List String) (w : World) :
    (stage_finalize originals w).tr = [] := rfl

theorem packing_fold_success (env : Env) (hfail : env.failAt = none) :
    ∀ (l : List String) (p : PipeOut), p.err = none →
      (l.foldl (packer_step env) p).err = none ∧
      (l.foldl (packer_step env) p).tr = p.tr ++ l.map Event.applyPacker := by
  intro l
  induction l with
  | nil => intro p hp; exact ⟨hp, by simp⟩
  | cons a l ih =>
    intro p hp
    have hse : (packer_step env p a).err = none ∧
        (packer_step env p a).tr = p.tr ++ [Event.applyPacker a] := by
      unfold packer_step
      rw [hp]
      dsimp only
      rw [if_neg (by simp [hfail])]
      exact ⟨rfl, rfl⟩
    rw [List.foldl_cons]
    refine ⟨(ih _ hse.1).1, ?_⟩
    rw [(ih _ hse.1).2, hse.2]
    simp

theorem stage_packing_success (env : Env) (bakeObjs : List String) (w : World)
    (hfail : env.failAt = none) (hmem : "VC_Packer" ∈ w.nodeGroups) :
    (stage_packing env bakeObjs w).err = none ∧
    (stage_packing env bakeObjs w).tr = bakeObjs.map Event.applyPacker := by
  unfold stage_packing
  rw [if_pos hmem]
  obtain ⟨h1, h2⟩ := packing_fold_success env hfail bakeObjs { w := w, tr := [], err := none } rfl
  exact ⟨h1, by rw [h2]; simp⟩

theorem dt_fold_success :
    ∀ (l : List (String × String)) (p : PipeOut), p.err = none →
      "VC_Processor" ∈ p.w.nodeGroups →
      (l.foldl dt_step p).err = none ∧
      (l.foldl dt_step p).tr = p.tr ++ l.map (fun q => Event.attachDT q.1 q.2) := by
  intro l
  induction l with
  | nil => intro p hp _; exact ⟨hp, by simp⟩
  | cons a l ih =>
    intro p hp hgr
    have hse : (dt_step p a).err = none ∧
        (dt_step p a).tr = p.tr ++ [Event.attachDT a.1 a.2] ∧
        "VC_Processor" ∈ (dt_step p a).w.nodeGroups := by
      unfold dt_step
      rw [hp]
      dsimp only
      split
      · split
        · exact ⟨rfl, rfl, hgr⟩
        case isFalse hcontra => exact absurd hgr hcontra
      · exact ⟨rfl, rfl, hgr⟩
    rw [List.foldl_cons]
    refine ⟨(ih _ hse.1 hse.2.2).1, ?_⟩
    rw [(ih _ hse.1 hse.2.2).2, hse.2.1]
    simp

theorem stage_dt_success (originals : List String) (w : World)
    (hgr : "VC_Processor" ∈ w.nodeGroups) :
    (stage_dt originals w).err = none ∧
    (stage_dt originals w).tr =
      originals.map (fun n => Event.attachDT n (n ++ BAKE_SUFFIX)) := by
  unfold stage_dt
  obtain ⟨h1, h2⟩ := dt_fold_success (originals.map (fun n => (n, n ++ BAKE_SUFFIX)))
    { w := w, tr := [], err := none } rfl hgr
  refine ⟨h1, ?_⟩
  rw [h2]
  simp

theorem stage_ao_tr_shape (env : Env) (originals bakeObjs : List String) (w : World) :
    ∃ s, (stage_ao env originals bakeObjs w).tr = [Event.bakePass "AO" VC_AO s] :=
  ⟨_, rfl⟩

theorem pipeline_body_success (env : Env) (originals : List String) (w : World)
    (hfail : env.failAt = none)
    (hpk : "VC_Packer" ∈ w.nodeGroups) (hpr : "VC_Processor" ∈ w.nodeGroups) :
    (pipeline_body env originals w).err = none ∧
    ∃ s1 s2 s3, (pipeline_body env originals w).tr =
      (originals.map (fun n => Event.duplicate n (n ++ BAKE_SUFFIX))) ++
      ((originals.map (fun n => n ++ BAKE_SUFFIX)).map Event.clean) ++
      [Event.bakePass "DIFFUSE" VC_CURVATURE s1, Event.bakePass "AO" VC_AO s2,
       Event.boundingBox, Event.bakePass "DIFFUSE" VC_GRADIENT s3] ++
      ((originals.map (fun n => n ++ BAKE_SUFFIX)).map Event.applyPacker) ++
      (originals.map (fun n => Event.attachDT n (n ++ BAKE_SUFFIX))) := by
  unfold pipeline_body
  dsimp only
  set bObjs := originals.map (fun n => n ++ BAKE_SUFFIX) with hB
  set p1 := stage_duplicate originals w with h1
  set p2 := p1.andThen (stage_prep env bObjs) with h2
  set p3 := p2.andThen (stage_curvature env bObjs) with h3
  set p4 := p3.andThen (stage_ao env originals bObjs) with h4
  set p5 := p4.andThen (stage_bbox bObjs) with h5
  set p6 := p5.andThen (stage_gradient env bObjs) with h6
  set p7 := p6.andThen (stage_packing env bObjs) with h7
  set p8 := p7.andThen (stage_dt originals) with h8
  have e1 : p1.err = none := by rw [h1, stage_duplicate_spec]
  have t1 : p1.tr = originals.map (fun n => Event.duplicate n (n ++ BAKE_SUFFIX)) := by
    rw [h1, stage_duplicate_spec]
  have w1ng : p1.w.nodeGroups = w.nodeGroups := by
    rw [h1]; exact stage_duplicate_nodeGroups originals w
  have e2 : p2.err = none := by
    rw [h2, andThen_err_none _ _ e1, stage_prep_spec]
  have t2 : p2.tr = p1.tr ++ bObjs.map Event.clean := by
    rw [h2, andThen_tr_none _ _ e1, stage_prep_spec]
  have w2ng : p2.w.nodeGroups = w.nodeGroups := by
    rw [h2, andThen_w_none _ _ e1, stage_prep_nodeGroups]; exact w1ng
  have e3 : p3.err = none := by
    rw [h3, andThen_err_none _ _ e2, stage_curvature_err]
    simp [hfail]
  obtain ⟨s1, hs1⟩ := stage_curvature_tr env bObjs p2.w
  have t3 : p3.tr = p2.tr ++ [Event.bakePass "DIFFUSE" VC_CURVATURE s1] := by
    rw [h3, andThen_tr_none _ _ e2, hs1]
  have w3ng : p3.w.nodeGroups = w.nodeGroups := by
    rw [h3, andThen_w_none _ _ e2, stage_curvature_nodeGroups]; exact w2ng
  have e4 : p4.err = none := by
    rw [h4, andThen_err_none _ _ e3, stage_ao_err]
    simp [hfail]
  obtain ⟨s2, hs2⟩ := stage_ao_tr_shape env originals bObjs p3.w
  have t4 : p4.tr = p3.tr ++ [Event.bakePass "AO" VC_AO s2] := by
    rw [h4, andThen_tr_none _ _ e3, hs2]
  have w4ng : p4.w.nodeGroups = w.nodeGroups := by
    rw [h4, andThen_w_none _ _ e3, stage_ao_nodeGroups]; exact w3ng
  have e5 : p5.err = none := by
    rw [h5, andThen_err_none _ _ e4, stage_bbox_err]
  have t5 : p5.tr = p4.tr ++ [Event.boundingBox] := by
    rw [h5, andThen_tr_none _ _ e4, stage_bbox_tr]
  have w5ng : p5.w.nodeGroups = w.nodeGroups := by
    rw [h5, andThen_w_none _ _ e4, stage_bbox_nodeGroups]; exact w4ng
  have e6 : p6.err = none := by
    rw [h6, andThen_err_none _ _ e5, stage_gradient_err]
    simp [hfail]
  obtain ⟨s3, hs3⟩ := stage_gradient_tr env bObjs p5.w
  have t6 : p6.tr = p5.tr ++ [Event.bakePass "DIFFUSE" VC_GRADIENT s3] := by
    rw [h6, andThen_tr_none _ _ e5, hs3]
  have w6ng : p6.w.nodeGroups = w.nodeGroups := by
    rw [h6, andThen_w_none _ _ e5, stage_gradient_nodeGroups]; exact w5ng
  have hpk6 : "VC_Packer" ∈ p6.w.nodeGroups := by rw [w6ng]; exact hpk
  have e7 : p7.err = none := by
    rw [h7, andThen_err_none _ _ e6]
    exact (stage_packing_success env bObjs p6.w hfail hpk6).1
  have t7 : p7.tr = p6.tr ++ bObjs.map Event.applyPacker := by
    rw [h7, andThen_tr_none _ _ e6, (stage_packing_success env bObjs p6.w hfail hpk6).2]
  have w7ng : p7.w.nodeGroups = w.nodeGroups := by
    rw [h7, andThen_w_none _ _ e6, stage_packing_nodeGroups]; exact w6ng
  have hpr7 : "VC_Processor" ∈ p7.w.nodeGroups := by rw [w7ng]; exact hpr
  have e8 : p8.err = none := by
    rw [h8, andThen_err_none _ _ e7]
    exact (stage_dt_success originals p7.w hpr7).1
  have t8 : p8.tr = p7.tr ++ originals.map (fun n => Event.attachDT n (n ++ BAKE_SUFFIX)) := by
    rw [h8, andThen_tr_none _ _ e7, (stage_dt_success originals p7.w hpr7).2]
  refine ⟨?_, s1, s2, s3, ?_⟩
  · rw [andThen_err_none _ _ e8, stage_finalize_err]
  · rw [andThen_tr_none _ _ e8, stage_finalize_tr, List.append_nil,
        t8, t7, t6, t5, t4, t3, t2, t1]
    simp [List.append_assoc]

-- ------------------------------------------------------------
-- AO pass: hide/restore machinery
-- ------------------------------------------------------------

theorem allHidden_updateObj_set (w : World) (n : String) :
    allHiddenNamed (updateObj w n (fun o => { o with hideRender := true })) n := by
  intro o ho hon
  unfold updateObj at ho
  simp only [List.mem_map] at ho
  obtain ⟨o0, ho0, rfl⟩ := ho
  by_cases h : o0.name = n
  · simp [h]
  · simp only [if_neg h] at hon ⊢
    exact absurd hon h

theorem allHidden_updateObj_pres (w : World) (m n : String) (f : Obj → Obj)
    (hname : ∀ o, (f o).name = o.name)
    (hhr : ∀ o, o.hideRender = true → (f o).hideRender = true)
    (h : allHiddenNamed w n) : allHiddenNamed (updateObj w m f) n := by
  intro o ho hon
  unfold updateObj at ho
  simp only [List.mem_map] at ho
  obtain ⟨o0, ho0, rfl⟩ := ho
  by_cases hq : o0.name = m
  · rw [if_pos hq] at hon ⊢
    rw [hname] at hon
    exact hhr o0 (h o0 ho0 hon)
  · rw [if_neg hq] at hon ⊢
    exact h o0 ho0 hon

theorem disable_fold_allHidden_mono (l : List String) (p : World × List (String × Bool))
    (n : String) (h : allHiddenNamed p.1 n) :
    allHiddenNamed (l.foldl disable_step p).1 n := by
  induction l generalizing p with
  | nil => exact h
  | cons a l ih =>
    rw [List.foldl_cons]
    apply ih
    show allHiddenNamed (updateObj p.1 a (fun o => { o with hideRender := true })) n
    exact allHidden_updateObj_pres p.1 a n _ (fun o => rfl) (fun o _ => rfl) h

theorem disable_fold_allHidden (l : List String) (p : World × List (String × Bool)) :
    ∀ n ∈ l, allHiddenNamed (l.foldl disable_step p).1 n := by
  induction l generalizing p with
  | nil => intro n hn; cases hn
  | cons a l ih =>
    intro n hn
    rw [List.foldl_cons]
    rcases List.mem_cons.mp hn with rfl | hn2
    · apply disable_fold_allHidden_mono
      show allHiddenNamed (updateObj p.1 n (fun o => { o with hideRender := true })) n
      exact allHidden_updateObj_set p.1 n
    · exact ih _ n hn2

theorem setactive_fold_allHidden (l : List String) (cn : String) (w : World) (n : String)
    (h : allHiddenNamed w n) :
    allHiddenNamed (l.foldl (fun acc m => updateObj acc m
      (fun o => set_active_color_attribute o cn)) w) n := by
  induction l generalizing w with
  | nil => exact h
  | cons a l ih =>
    rw [List.foldl_cons]
    exact ih _ (allHidden_updateObj_pres w a n _ (fun o => set_active_name o cn)
      (fun o hh => by rw [set_active_hideRender]; exact hh) h)

theorem stage_ao_tr_strong (env : Env) (originals bakeObjs : List String) (w : World) :
    ∃ s, (stage_ao env originals bakeObjs w).tr = [Event.bakePass "AO" VC_AO s] ∧
      ∀ n ∈ originals, ∀ q ∈ s, q.1 = n → q.2 = true := by
  unfold stage_ao disable_render_temporarily bake_call
  dsimp only
  refine ⟨_, rfl, ?_⟩
  intro n hn q hq hqn
  simp only [List.mem_map] at hq
  obtain ⟨o, ho, rfl⟩ := hq
  have hAll : allHiddenNamed ((originals.foldl disable_step
      ({ w with render := set_bake_pass_flags w.render true true true }, [])).1) n :=
    disable_fold_allHidden originals _ n hn
  have hAll2 := setactive_fold_allHidden bakeObjs VC_AO _ n hAll
  exact hAll2 o ho hqn

theorem restore_preserve_notmem (st : List (String × Bool)) (w : World) (n : String)
    (h : ∀ q ∈ st, q.1 ≠ n) :
    objHideRender (restore_render_state w st) n = objHideRender w n := by
  induction st generalizing w with
  | nil => rfl
  | cons a st ih =>
    show objHideRender (restore_render_state
      (updateObj w a.1 (fun o => { o with hideRender := a.2 })) st) n = objHideRender w n
    rw [ih _ (fun q hq => h q (by simp [hq]))]
    exact objHideRender_updateObj_other w a.1 n _
      (Ne.symm (h a (by simp))) (fun o => rfl)

theorem restore_eval (l : List String) (v : String → Bool) (w : World) (n : String)
    (hnd : l.Nodup) (hm : n ∈ l) :
    objHideRender (restore_render_state w (l.map (fun m => (m, v m)))) n =
      (objHideRender w n).map (fun _ => v n) := by
  induction l generalizing w with
  | nil => cases hm
  | cons a l ih =>
    simp only [List.map_cons]
    show objHideRender (restore_render_state
      (updateObj w a (fun o => { o with hideRender := v a }))
      (l.map (fun m => (m, v m)))) n = (objHideRender w n).map (fun _ => v n)
    rcases List.mem_cons.mp hm with rfl | hm2
    · have hnl : n ∉ l := (List.nodup_cons.mp hnd).1
      rw [restore_preserve_notmem _ _ _ (fun q hq => ?_)]
      · exact objHideRender_updateObj_set w n (v n)
      · simp only [List.mem_map] at hq
        obtain ⟨m, hm3, rfl⟩ := hq
        exact fun heq => hnl (heq ▸ hm3)
    · have hna : n ≠ a := fun heq => (List.nodup_cons.mp hnd).1 (heq ▸ hm2)
      rw [ih _ (List.nodup_cons.mp hnd).2 hm2,
        objHideRender_updateObj_other w a n
          (fun o => { o with hideRender := v a }) hna (fun o => rfl)]

theorem disable_fold_saved (l : List String) (p : World × List (String × Bool))
    (hnd : l.Nodup) :
    (l.foldl disable_step p).2 =
      p.2 ++ l.map (fun m => (m, (objHideRender p.1 m).getD false)) := by
  induction l generalizing p with
  | nil => simp
  | cons a l ih =>
    rw [List.foldl_cons, ih _ (List.nodup_cons.mp hnd).2]
    have hcur : (disable_step p a).2 = p.2 ++ [(a, (objHideRender p.1 a).getD false)] := by
      unfold disable_step
      dsimp only
      have : (match findObj p.1 a with
          | some o => o.hideRender
          | none => false) = (objHideRender p.1 a).getD false := by
        unfold objHideRender
        cases findObj p.1 a <;> rfl
      rw [this]
    rw [hcur, List.append_assoc, List.singleton_append, List.map_cons]
    congr 2
    apply mapCongrMem
    intro m hml
    have hma : m ≠ a := fun heq => (List.nodup_cons.mp hnd).1 (heq ▸ hml)
    have hpres : objHideRender (disable_step p a).1 m = objHideRender p.1 m := by
      show objHideRender (updateObj p.1 a (fun o => { o with hideRender := true })) m =
        objHideRender p.1 m
      exact objHideRender_updateObj_other p.1 a m _ hma (fun o => rfl)
    rw [hpres]

theorem disable_fold_isSome (l : List String) (p : World × List (String × Bool)) (n : String) :
    (objHideRender (l.foldl disable_step p).1 n).isSome =
      (objHideRender p.1 n).isSome := by
  induction l generalizing p with
  | nil => rfl
  | cons a l ih =>
    rw [List.foldl_cons, ih]
    show (objHideRender (updateObj p.1 a (fun o => { o with hideRender := true })) n).isSome =
      (objHideRender p.1 n).isSome
    exact objHideRender_isSome_updateObj p.1 a n _ (fun o => rfl)

theorem stage_ao_objHideRender (env : Env) (originals bakeObjs : List String) (w : World)
    (hnd : originals.Nodup) :
    ∀ n ∈ originals,
      objHideRender (stage_ao env originals bakeObjs w).w n = objHideRender w n := by
  intro n hn
  unfold stage_ao disable_render_temporarily
  dsimp only
  rw [disable_fold_saved originals _ hnd, List.nil_append,
    restore_eval originals _ _ n hnd hn, bake_call_w_objHideRender]
  have hsome := disable_fold_isSome originals
    ({ w with render := set_bake_pass_flags w.render true true true }, []) n
  have hbase : objHideRender
      ({ w with render := set_bake_pass_flags w.render true true true } :
        World) n = objHideRender w n := rfl
  rw [hbase] at hsome
  cases hval : objHideRender w n with
  | none =>
    rw [hval] at hsome
    have : objHideRender (originals.foldl disable_step
        ({ w with render := set_bake_pass_flags w.render true true true }, [])).1 n = none := by
      cases hv2 : objHideRender (originals.foldl disable_step
          ({ w with render := set_bake_pass_flags w.render true true true }, [])).1 n with
      | none => rfl
      | some b => rw [hv2] at hsome; simp at hsome
    rw [this]
    rfl
  | some b =>
    rw [hval] at hsome
    obtain ⟨c, hc⟩ := Option.isSome_iff_exists.mp (by rw [hsome]; rfl)
    rw [hc]
    have : (objHideRender ({ w with render := set_bake_pass_flags w.render true true true} :
        World) n).getD false = b := by
      rw [hbase, hval]
      rfl
    rw [this]
    rfl

-- ------------------------------------------------------------
-- hide_render preservation of the remaining stages
-- ------------------------------------------------------------

theorem objHideRender_congr_objects (w2 w : World) (h : w2.objects = w.objects) (n : String) :
    objHideRender w2 n = objHideRender w n := by
  unfold objHideRender findObj
  rw [h]

theorem dup_fold_objHideRender (n : String) :
    ∀ (l : List String) (w : World), (∀ m ∈ l, n ≠ m ++ BAKE_SUFFIX) →
      objHideRender (l.foldl dup_stepW w) n = objHideRender w n := by
  intro l
  induction l with
  | nil => intro w _; rfl
  | cons a l ih =>
    intro w hdup
    rw [List.foldl_cons, ih _ (fun m hm => hdup m (by simp [hm])),
      dup_stepW_objHideRender w a n (hdup a (by simp))]

theorem stage_duplicate_objHideRender (originals : List String) (w : World) (n : String)
    (hdup : ∀ m ∈ originals, n ≠ m ++ BAKE_SUFFIX) :
    objHideRender (stage_duplicate originals w).w n = objHideRender w n := by
  rw [stage_duplicate_spec]
  exact dup_fold_objHideRender n originals w hdup

theorem prep_fold_objHideRender (env : Env) (n : String) :
    ∀ (l : List String) (w : World),
      objHideRender (l.foldl (prep_stepW env) w) n = objHideRender w n := by
  intro l
  induction l with
  | nil => intro w; rfl
  | cons a l ih =>
    intro w
    rw [List.foldl_cons, ih, prep_stepW_objHideRender]

theorem stage_prep_objHideRender (env : Env) (bakeObjs : List String) (w : World)
    (n : String) :
    objHideRender (stage_prep env bakeObjs w).w n = objHideRender w n := by
  rw [stage_prep_spec]
  exact prep_fold_objHideRender env n bakeObjs w

theorem stage_curvature_objHideRender (env : Env) (bakeObjs : List String) (w : World)
    (n : String) :
    objHideRender (stage_curvature env bakeObjs w).w n = objHideRender w n := by
  unfold stage_curvature
  rw [bake_call_w_objHideRender]
  rfl

theorem stage_bbox_objHideRender (bakeObjs : List String) (w : World) (n : String)
    (hne : n ≠ "_boundingbox_bake") :
    objHideRender (stage_bbox bakeObjs w).w n = objHideRender w n := by
  unfold stage_bbox
  exact create_bbox_objHideRender w bakeObjs BAKE_COLLECTION n hne

theorem gradient_fold_objHideRender (n : String) :
    ∀ (l : List String) (w : World),
      objHideRender (l.foldl (fun acc m => updateObj acc m
        (fun o => { o with materials := [MAT_GRADIENT] })) w) n = objHideRender w n := by
  intro l
  induction l with
  | nil => intro w; rfl
  | cons a l ih =>
    intro w
    rw [List.foldl_cons, ih]
    exact objHideRender_updateObj_pres w a n _ (fun o => rfl) (fun o => rfl)

theorem stage_gradient_objHideRender (env : Env) (bakeObjs : List String) (w : World)
    (n : String) :
    objHideRender (stage_gradient env bakeObjs w).w n = objHideRender w n := by
  unfold stage_gradient
  dsimp only
  rw [bake_call_w_objHideRender]
  exact gradient_fold_objHideRender n bakeObjs w

theorem packing_fold_objHideRender (env : Env) (n : String) :
    ∀ (l : List String) (p : PipeOut),
      objHideRender (l.foldl (packer_step env) p).w n = objHideRender p.w n := by
  intro l
  induction l with
  | nil => intro p; rfl
  | cons a l ih =>
    intro p
    rw [List.foldl_cons, ih, packer_step_objHideRender]

theorem stage_packing_objHideRender (env : Env) (bakeObjs : List String) (w : World)
    (n : String) :
    objHideRender (stage_packing env bakeObjs w).w n = objHideRender w n := by
  unfold stage_packing
  split
  · exact packing_fold_objHideRender env n bakeObjs _
  · rfl

theorem dt_fold_objHideRender (n : String) :
    ∀ (l : List (String × String)) (p : PipeOut),
      objHideRender (l.foldl dt_step p).w n = objHideRender p.w n := by
  intro l
  induction l with
  | nil => intro p; rfl
  | cons a l ih =>
    intro p
    rw [List.foldl_cons, ih, dt_step_objHideRender]

theorem stage_dt_objHideRender (originals : List String) (w : World) (n : String) :
    objHideRender (stage_dt originals w).w n = objHideRender w n := by
  unfold stage_dt
  exact dt_fold_objHideRender n _ _

theorem stage_finalize_objHideRender (originals : List String) (w : World) (n : String) :
    objHideRender (stage_finalize originals w).w n = objHideRender w n := by
  unfold stage_finalize
  dsimp only
  induction originals generalizing w with
  | nil => rfl
  | cons a l ih =>
    rw [List.foldl_cons, ih]
    exact objHideRender_updateObj_pres w a n _
      (fun o => set_active_name o VC_PREVIEW) (fun o => set_active_hideRender o VC_PREVIEW)

theorem andThen_objHideRender (p : PipeOut) (f : World → PipeOut) (n : String)
    (hf : ∀ w2, objHideRender (f w2).w n = objHideRender w2 n) :
    objHideRender (p.andThen f).w n = objHideRender p.w n := by
  cases hp : p.err with
  | none => rw [andThen_none _ _ hp]; exact hf p.w
  | some e => rw [andThen_some _ _ _ hp]

theorem pipeline_body_objHideRender (env : Env) (originals : List String) (w : World)
    (n : String) (hn : n ∈ originals) (hnd : originals.Nodup)
    (hbb : n ≠ "_boundingbox_bake")
    (hdup : ∀ m ∈ originals, n ≠ m ++ BAKE_SUFFIX) :
    objHideRender (pipeline_body env originals w).w n = objHideRender w n := by
  unfold pipeline_body
  dsimp only
  rw [andThen_objHideRender _ _ n (fun w2 => stage_finalize_objHideRender originals w2 n),
      andThen_objHideRender _ _ n (fun w2 => stage_dt_objHideRender originals w2 n),
      andThen_objHideRender _ _ n (fun w2 => stage_packing_objHideRender env _ w2 n),
      andThen_objHideRender _ _ n (fun w2 => stage_gradient_objHideRender env _ w2 n),
      andThen_objHideRender _ _ n (fun w2 => stage_bbox_objHideRender _ w2 n hbb),
      andThen_objHideRender _ _ n
        (fun w2 => stage_ao_objHideRender env originals _ w2 hnd n hn),
      andThen_objHideRender _ _ n (fun w2 => stage_curvature_objHideRender env _ w2 n),
      andThen_objHideRender _ _ n (fun w2 => stage_prep_objHideRender env _ w2 n),
      stage_duplicate_objHideRender originals w n hdup]

theorem pipeline_body_ao_event (env : Env) (originals : List String) (w : World)
    (hcf : env.failAt ≠ some FailPoint.bakeCurvature) :
    ∃ s, Event.bakePass "AO" VC_AO s ∈ (pipeline_body env originals w).tr ∧
      ∀ n ∈ originals, ∀ q ∈ s, q.1 = n → q.2 = true := by
  unfold pipeline_body
  dsimp only
  set bObjs := originals.map (fun n => n ++ BAKE_SUFFIX) with hB
  set p1 := stage_duplicate originals w with h1
  set p2 := p1.andThen (stage_prep env bObjs) with h2
  set p3 := p2.andThen (stage_curvature env bObjs) with h3
  have e1 : p1.err = none := by rw [h1, stage_duplicate_spec]
  have e2 : p2.err = none := by rw [h2, andThen_err_none _ _ e1, stage_prep_spec]
  have e3 : p3.err = none := by
    rw [h3, andThen_err_none _ _ e2, stage_curvature_err]
    exact if_neg hcf
  obtain ⟨s, hs, hprop⟩ := stage_ao_tr_strong env originals bObjs p3.w
  refine ⟨s, ?_, hprop⟩
  apply andThen_tr_mono
  apply andThen_tr_mono
  apply andThen_tr_mono
  apply andThen_tr_mono
  apply andThen_tr_mono
  rw [andThen_tr_none _ _ e3, hs]
  simp

-- ------------------------------------------------------------
-- run_pipeline / execute reduction
-- ------------------------------------------------------------

theorem run_pipeline_reduce (env : Env) (originals : List String) (w : World)
    (hex : env.blendFileExists = true)
    (hc : MAT_CURVATURE ∈ w.materials ∨ MAT_CURVATURE ∈ env.blendMaterials)
    (hg : MAT_GRADIENT ∈ w.materials ∨ MAT_GRADIENT ∈ env.blendMaterials) :
    ∃ w3, (run_pipeline env originals w).err = (pipeline_body env originals w3).err ∧
      (run_pipeline env originals w).tr =
        Event.loadAssets :: (pipeline_body env originals w3).tr ∧
      (∀ n, objHideRender (run_pipeline env originals w).w n =
        objHideRender (pipeline_body env originals w3).w n) ∧
      (∀ n, objHideRender w3 n = objHideRender w n) ∧
      w3.nodeGroups = w.nodeGroups ++ ["VC_Processor", "VC_Packer"].filter
        (fun x => x ∉ w.nodeGroups ∧ x ∈ env.blendNodeGroups) := by
  unfold run_pipeline
  rw [load_from_blend_ok_eq env w hex]
  dsimp only
  rw [if_pos (mem_after_load_mat w env MAT_CURVATURE (by simp) hc),
      if_pos (mem_after_load_mat w env MAT_GRADIENT (by simp) hg)]
  refine ⟨_, rfl, rfl, fun n => rfl, fun n => ?_, ?_⟩
  · apply objHideRender_congr_objects
    rw [ensure_visible_objects, ensure_collection_objects]
  · rw [ensure_visible_nodeGroups, ensure_collection_nodeGroups]

theorem run_pipeline_entered (env : Env) (originals : List String) (w : World)
    (hex : env.blendFileExists = true)
    (hc : MAT_CURVATURE ∈ w.materials ∨ MAT_CURVATURE ∈ env.blendMaterials)
    (hg : MAT_GRADIENT ∈ w.materials ∨ MAT_GRADIENT ∈ env.blendMaterials) :
    (run_pipeline env originals w).w.render.engine = w.render.engine ∧
    (∃ c ∈ (run_pipeline env originals w).w.collections,
      c.name = BAKE_COLLECTION ∧ c.hideViewport = true) := by
  unfold run_pipeline
  rw [load_from_blend_ok_eq env w hex]
  dsimp only
  rw [if_pos (mem_after_load_mat w env MAT_CURVATURE (by simp) hc),
      if_pos (mem_after_load_mat w env MAT_GRADIENT (by simp) hg)]
  constructor
  · show (ensure_collection_visible_and_editable _ BAKE_COLLECTION).render.engine =
      w.render.engine
    rw [ensure_visible_render, ensure_collection_render]
  · apply hideBake_mem
    show BAKE_COLLECTION ∈ collNames (pipeline_body env originals _).w
    rw [pipeline_body_collNames, ensure_visible_collNames]
    exact ensure_collection_mem _ BAKE_COLLECTION

theorem execute_cancelled_eq (env : Env) (w : World)
    (h : selected_mesh_objects env w = []) :
    OBJECT_OT_vc_bake_project.execute env w =
      { status := Status.cancelled, w := w, tr := [], logs := [],
        reports := [("ERROR", "No mesh objects selected")] } := by
  unfold OBJECT_OT_vc_bake_project.execute
  rw [if_pos h]

theorem execute_of_err_some (env : Env) (w : World)
    (h : ¬ (selected_mesh_objects env w = [])) (e : Exn)
    (hp : (run_pipeline env (selected_mesh_objects env w) w).err = some e) :
    OBJECT_OT_vc_bake_project.execute env w =
      { status := Status.raised e,
        w := (run_pipeline env (selected_mesh_objects env w) w).w,
        tr := (run_pipeline env (selected_mesh_objects env w) w).tr,
        logs := ["[Vertex Baker] Bake started at: " ++ env.now,
                 "[Vertex Baker] Bake failed at: " ++ env.now],
        reports := [] } := by
  unfold OBJECT_OT_vc_bake_project.execute
  rw [if_neg h]
  dsimp only
  rw [hp]

theorem execute_of_err_none (env : Env) (w : World)
    (h : ¬ (selected_mesh_objects env w = []))
    (hp : (run_pipeline env (selected_mesh_objects env w) w).err = none) :
    OBJECT_OT_vc_bake_project.execute env w =
      { status := Status.finished,
        w := (run_pipeline env (selected_mesh_objects env w) w).w,
        tr := (run_pipeline env (selected_mesh_objects env w) w).tr,
        logs := ["[Vertex Baker] Bake started at: " ++ env.now,
                 "[Vertex Baker] Bake finished at: " ++ env.now],
        reports := [("INFO", "Finished Bake")] } := by
  unfold OBJECT_OT_vc_bake_project.execute
  rw [if_neg h]
  dsimp only
  rw [hp]

-- ------------------------------------------------------------
-- clean_bake_object_modifiers characterization
-- ------------------------------------------------------------

theorem removeModFirst_cons_ne (cur : List Modifier) (m : Modifier) (a : String)
    (ha : m.name ≠ a) : removeModFirst (m :: cur) a = m :: removeModFirst cur a := by
  have h : removeModFirst (m :: cur) a =
      if m.name = a then cur else m :: removeModFirst cur a := rfl
  rw [h, if_neg ha]

theorem removeModFirst_cons_eq (cur : List Modifier) (m : Modifier) :
    removeModFirst (m :: cur) m.name = cur := by
  have h : removeModFirst (m :: cur) m.name =
      if m.name = m.name then cur else m :: removeModFirst cur m.name := rfl
  rw [h, if_pos rfl]

theorem removeFold_cons_skip (m : Modifier) :
    ∀ (names : List String) (cur : List Modifier), m.name ∉ names →
      (names.foldl removeModFirst (m :: cur)) =
        m :: names.foldl removeModFirst cur := by
  intro names
  induction names with
  | nil => intro cur _; rfl
  | cons a names ih =>
    intro cur hm
    have ha : m.name ≠ a := fun heq => hm (by simp [heq])
    rw [List.foldl_cons, List.foldl_cons, removeModFirst_cons_ne cur m a ha]
    exact ih _ (fun hx => hm (by simp [hx]))

theorem modsToRemove_sub (P : Modifier → Bool) (l : List Modifier) :
    ∀ x ∈ l.filterMap (fun m => if P m then some m.name else none),
      x ∈ l.map (fun m => m.name) := by
  intro x hx
  simp only [List.mem_filterMap] at hx
  obtain ⟨m, hm, hmx⟩ := hx
  by_cases h : P m = true
  · rw [if_pos h] at hmx
    cases hmx
    exact List.mem_map_of_mem _ hm
  · rw [if_neg h] at hmx
    cases hmx

theorem removeFold_filter (P : Modifier → Bool) :
    ∀ (l : List Modifier), (l.map (fun m => m.name)).Nodup →
      ((l.filterMap (fun m => if P m then some m.name else none)).foldl
        removeModFirst l) = l.filter (fun m => !P m) := by
  intro l
  induction l with
  | nil => intro _; rfl
  | cons m l ih =>
    intro hnd
    have hnm : m.name ∉ l.map (fun x => x.name) := (List.nodup_cons.mp (by simpa using hnd)).1
    have hndt : (l.map (fun x => x.name)).Nodup := (List.nodup_cons.mp (by simpa using hnd)).2
    by_cases hP : P m = true
    · rw [List.filterMap_cons, if_pos hP]
      dsimp only
      rw [List.foldl_cons, removeModFirst_cons_eq l m, ih hndt, List.filter_cons, hP]
      simp
    · rw [List.filterMap_cons, if_neg hP]
      dsimp only
      rw [removeFold_cons_skip m _ l
        (fun hx => hnm (modsToRemove_sub P l m.name hx)),
        ih hndt, List.filter_cons]
      have hP' : P m = false := by simpa using hP
      rw [hP']
      simp

theorem applyFold_cons_skip (f : String → Bool) (m : Modifier) :
    ∀ (names : List String) (cur : List Modifier), m.name ∉ names →
      (names.foldl (fun cur n => if f n then cur else removeModFirst cur n) (m :: cur)) =
        m :: names.foldl (fun cur n => if f n then cur else removeModFirst cur n) cur := by
  intro names
  induction names with
  | nil => intro cur _; rfl
  | cons a names ih =>
    intro cur hm
    have ha : m.name ≠ a := fun heq => hm (by simp [heq])
    rw [List.foldl_cons, List.foldl_cons]
    have hstep : (if f a then (m :: cur) else removeModFirst (m :: cur) a) =
        m :: (if f a then cur else removeModFirst cur a) := by
      by_cases hfa : f a = true
      · rw [if_pos hfa, if_pos hfa]
      · have hfa' : f a = false := by simpa using hfa
        rw [if_neg (by simp [hfa']), if_neg (by simp [hfa']),
          removeModFirst_cons_ne cur m a ha]
    rw [hstep]
    exact ih _ (fun hx => hm (by simp [hx]))

theorem applyFold_filter (f : String → Bool) :
    ∀ (l : List Modifier), (l.map (fun m => m.name)).Nodup →
      ((l.map (fun m => m.name)).foldl
        (fun cur n => if f n then cur else removeModFirst cur n) l) =
        l.filter (fun m => f m.name) := by
  intro l
  induction l with
  | nil => intro _; rfl
  | cons m l ih =>
    intro hnd
    have hnm : m.name ∉ l.map (fun x => x.name) := (List.nodup_cons.mp (by simpa using hnd)).1
    have hndt : (l.map (fun x => x.name)).Nodup := (List.nodup_cons.mp (by simpa using hnd)).2
    simp only [List.map_cons, List.foldl_cons]
    by_cases hf : f m.name = true
    · rw [if_pos hf, applyFold_cons_skip f m _ l hnm, ih hndt, List.filter_cons, hf]
      simp
    · have hf' : f m.name = false := by simpa using hf
      rw [if_neg (by simp [hf']), removeModFirst_cons_eq l m,
        ih hndt, List.filter_cons, hf']
      simp

theorem clean_bake_eq_filter (applyFailsFor : String → Bool) (o : Obj)
    (hnd : (o.modifiers.map (fun m => m.name)).Nodup) :
    (clean_bake_object_modifiers applyFailsFor o).modifiers =
      o.modifiers.filter (fun m => applyFailsFor m.name && !shouldRemoveMod m) := by
  unfold clean_bake_object_modifiers
  dsimp only
  rw [removeFold_filter shouldRemoveMod o.modifiers hnd]
  have hsub : ((o.modifiers.filter (fun m => !shouldRemoveMod m)).map
      (fun m => m.name)).Sublist (o.modifiers.map (fun m => m.name)) :=
    List.Sublist.map _ (List.filter_sublist o.modifiers)
  rw [applyFold_filter applyFailsFor _ (hnd.sublist hsub), List.filter_filter]

-- ------------------------------------------------------------
-- duplicate_object characterization helpers
-- ------------------------------------------------------------

theorem filter_name_of_removed (l : List Obj) (nn : String) (d : Obj)
    (hd : d.name = nn) :
    ((l.filter (fun o => o.name ≠ nn) ++ [d]).filter (fun x => x.name == nn)) = [d] := by
  induction l with
  | nil =>
    show (([] ++ [d]).filter (fun x => x.name == nn)) = [d]
    simp [List.filter, hd]
  | cons o l ih =>
    by_cases h : o.name = nn
    · rw [List.filter_cons, if_neg (by simp [h])]
      exact ih
    · rw [List.filter_cons, if_pos (by simp [h]), List.cons_append,
        List.filter_cons, if_neg (by simp [h])]
      exact ih

theorem filter_name_of_absent (l : List Obj) (nn : String) (d : Obj)
    (hd : d.name = nn) (h : l.any (fun o => o.name == nn) = false) :
    ((l ++ [d]).filter (fun x => x.name == nn)) = [d] := by
  induction l with
  | nil =>
    show (([] ++ [d]).filter (fun x => x.name == nn)) = [d]
    simp [List.filter, hd]
  | cons o l ih =>
    simp only [List.any_cons, Bool.or_eq_false_iff] at h
    rw [List.cons_append, List.filter_cons, if_neg (by simp [h.1])]
    exact ih h.2

-- ------------------------------------------------------------
-- ensure_datatransfer helpers
-- ------------------------------------------------------------

theorem updateModFirst_cons_ne (r : List Modifier) (m : Modifier) (n : String)
    (f : Modifier → Modifier) (h : m.name ≠ n) :
    updateModFirst (m :: r) n f = m :: updateModFirst r n f := by
  have he : updateModFirst (m :: r) n f =
      if m.name = n then f m :: r else m :: updateModFirst r n f := rfl
  rw [he, if_neg h]

theorem updateModFirst_cons_eq (r : List Modifier) (m : Modifier) (f : Modifier → Modifier) :
    updateModFirst (m :: r) m.name f = f m :: r := by
  have he : updateModFirst (m :: r) m.name f =
      if m.name = m.name then f m :: r else m :: updateModFirst r m.name f := rfl
  rw [he, if_pos rfl]

theorem updateModFirst_filter_len (n : String) (f : Modifier → Modifier)
    (hf : ∀ m, (f m).name = m.name) :
    ∀ (l : List Modifier),
      ((updateModFirst l n f).filter (fun m => m.name == n)).length =
        (l.filter (fun m => m.name == n)).length := by
  intro l
  induction l with
  | nil => rfl
  | cons m l ih =>
    by_cases h : m.name = n
    · rw [← h, updateModFirst_cons_eq l m f, List.filter_cons, List.filter_cons,
        if_pos (by simp [hf m]), if_pos (by simp)]
      simp
    · rw [updateModFirst_cons_ne l m n f h, List.filter_cons, List.filter_cons,
        if_neg (by simp [h]), if_neg (by simp [h])]
      exact ih

theorem filter_name_len_le_one (n : String) :
    ∀ (l : List Modifier), (l.map (fun m => m.name)).Nodup →
      (l.filter (fun m => m.name == n)).length ≤ 1 := by
  intro l
  induction l with
  | nil => intro _; simp
  | cons m l ih =>
    intro hnd
    have hnm : m.name ∉ l.map (fun x => x.name) := (List.nodup_cons.mp (by simpa using hnd)).1
    have hndt : (l.map (fun x => x.name)).Nodup := (List.nodup_cons.mp (by simpa using hnd)).2
    by_cases h : m.name = n
    · rw [List.filter_cons, if_pos (by simp [h])]
      have hnil : l.filter (fun x => x.name == n) = [] := by
        rw [List.filter_eq_nil_iff]
        intro x hx
        simp only [beq_iff_eq]
        intro hxn
        exact hnm (by rw [← h] at hxn; exact hxn ▸ List.mem_map_of_mem _ hx)
      rw [hnil]
      simp
    · rw [List.filter_cons, if_neg (by simp [h])]
      exact ih hndt

theorem filter_name_len_pos (n : String) (l : List Modifier)
    (h : l.any (fun m => m.name == n) = true) :
    1 ≤ (l.filter (fun m => m.name == n)).length := by
  simp only [List.any_eq_true] at h
  obtain ⟨m, hm, hmn⟩ := h
  have : m ∈ l.filter (fun m => m.name == n) := List.mem_filter.mpr ⟨hm, hmn⟩
  exact List.length_pos.mpr (fun hnil => by rw [hnil] at this; cases this)

theorem updateModFirst_mem (n : String) (f : Modifier → Modifier) :
    ∀ (l : List Modifier), l.any (fun m => m.name == n) = true →
      ∃ m0, m0.name = n ∧ f m0 ∈ updateModFirst l n f := by
  intro l
  induction l with
  | nil => intro h; cases h
  | cons m l ih =>
    intro h
    by_cases hm : m.name = n
    · rw [← hm, updateModFirst_cons_eq l m f]
      exact ⟨m, hm ▸ rfl, by simp⟩
    · rw [updateModFirst_cons_ne l m n f hm]
      simp only [List.any_cons, Bool.or_eq_true] at h
      rcases h with h | h
      · exact absurd (by simpa using h) hm
      · obtain ⟨m0, hm0, hmem⟩ := ih h
        exact ⟨m0, hm0, by simp [hmem]⟩

theorem updateModFirst_idem (n : String) (f : Modifier → Modifier)
    (hf : ∀ m, (f m).name = m.name) (hff : ∀ m, f (f m) = f m) :
    ∀ (l : List Modifier),
      updateModFirst (updateModFirst l n f) n f = updateModFirst l n f := by
  intro l
  induction l with
  | nil => rfl
  | cons m l ih =>
    by_cases h : m.name = n
    · rw [← h, updateModFirst_cons_eq l m f,
        show updateModFirst (f m :: l) m.name f = updateModFirst (f m :: l) (f m).name f from by
          rw [hf m],
        updateModFirst_cons_eq l (f m) f, hff m]
    · rw [updateModFirst_cons_ne l m n f h,
        updateModFirst_cons_ne (updateModFirst l n f) m n f h, ih]

theorem updateModFirst_names (n : String) (f : Modifier → Modifier)
    (hf : ∀ m, (f m).name = m.name) :
    ∀ (l : List Modifier),
      (updateModFirst l n f).map (fun m => m.name) = l.map (fun m => m.name) := by
  intro l
  induction l with
  | nil => rfl
  | cons m l ih =>
    by_cases h : m.name = n
    · rw [← h, updateModFirst_cons_eq l m f]
      simp [hf m]
    · rw [updateModFirst_cons_ne l m n f h]
      simp [ih]

theorem updateModFirst_append_nomatch (n : String) (f : Modifier → Modifier) (d : Modifier) :
    ∀ (l : List Modifier), l.any (fun m => m.name == n) = false →
      updateModFirst (l ++ [d]) n f = l ++ updateModFirst [d] n f := by
  intro l
  induction l with
  | nil => intro _; rfl
  | cons m l ih =>
    intro h
    simp only [List.any_cons, Bool.or_eq_false_iff] at h
    rw [List.cons_append, updateModFirst_cons_ne _ m n f (by simpa using h.1),
      ih h.2, List.cons_append]
theorem updateModFirst_len (n : String) (f : Modifier → Modifier) :
    ∀ (l : List Modifier), (updateModFirst l n f).length = l.length := by
  intro l
  induction l with
  | nil => rfl
  | cons m l ih =>
    by_cases h : m.name = n
    · rw [← h, updateModFirst_cons_eq l m f]
      simp
    · rw [updateModFirst_cons_ne l m n f h]
      simp [ih]

-- ------------------------------------------------------------
-- Claim theorems
-- ------------------------------------------------------------

/-- C7: `load_from_blend` raises `FileNotFoundError` when the bundled
`VertexBaker.blend` is absent; with the file present it returns normally and
appends each of `Mat_Curvature`, `Mat_Gradient`, `VC_Processor`, `VC_Packer`
exactly when that datablock is both absent from the current file's data and
present in the bundled file (the filter condition below); in particular a
datablock already present in the current file is never loaded again, and
nothing else in the state changes. -/
theorem claim_C7 (env : Env) (w : World) :
    (env.blendFileExists = false →
      load_from_blend env w =
        Except.error (Exn.fileNotFound "VertexBaker.blend not found next to add-on")) ∧
    (env.blendFileExists = true →
      load_from_blend env w = Except.ok { w with
        materials := w.materials ++ [MAT_CURVATURE, MAT_GRADIENT].filter
          (fun m => m ∉ w.materials ∧ m ∈ env.blendMaterials),
        nodeGroups := w.nodeGroups ++ ["VC_Processor", "VC_Packer"].filter
          (fun g => g ∉ w.nodeGroups ∧ g ∈ env.blendNodeGroups) }) :=
  ⟨load_from_blend_error env w, load_from_blend_ok_eq env w⟩

/-- Witness for C7: a current file already holding `Mat_Gradient` and
`VC_Processor`, and a bundled file holding `Mat_Curvature` and `VC_Packer`:
only the two missing-and-bundled datablocks are appended. -/
theorem claim_C7_witness :
    load_from_blend
      { selected := [], blendFileExists := true,
        blendMaterials := ["Mat_Curvature"], blendNodeGroups := ["VC_Packer"] }
      { render := { engine := "CYCLES" }, materials := ["Mat_Gradient"],
        nodeGroups := ["VC_Processor"] } =
      Except.ok
        { render := { engine := "CYCLES" },
          materials := ["Mat_Gradient", "Mat_Curvature"],
          nodeGroups := ["VC_Processor", "VC_Packer"] } := by
  rw [(claim_C7 _ _).2 rfl]
  rfl

/-- C8: with no mesh object in the selection, `execute` reports the error
"No mesh objects selected" and returns `{'CANCELLED'}` with the whole host
state untouched: no asset was loaded, no duplicate created, no render
setting changed, no log line printed. -/
theorem claim_C8 (env : Env) (w : World)
    (h : selected_mesh_objects env w = []) :
    OBJECT_OT_vc_bake_project.execute env w =
      { status := Status.cancelled, w := w, tr := [], logs := [],
        reports := [("ERROR", "No mesh objects selected")] } :=
  execute_cancelled_eq env w h

/-- Witness for C8: a selection holding only a light object is cancelled with
the scene unchanged. -/
theorem claim_C8_witness :
    OBJECT_OT_vc_bake_project.execute { selected := ["Light"] } sampleW =
      { status := Status.cancelled, w := sampleW, tr := [], logs := [],
        reports := [("ERROR", "No mesh objects selected")] } :=
  claim_C8 _ _ (by decide)

/-- C9: `ensure_color_attribute` is idempotent; when the named attribute
already exists the mesh's color attributes are left unchanged (the whole
object is unchanged); otherwise exactly one new `FLOAT_COLOR` / `POINT`
attribute with that name is appended; and in either case the named attribute
exists afterwards. -/
theorem claim_C9 (o : Obj) (nm : String) :
    (ensure_color_attribute (ensure_color_attribute o nm) nm =
      ensure_color_attribute o nm) ∧
    ((o.colorAttributes.any (fun a => a.name == nm)) = true →
      ensure_color_attribute o nm = o) ∧
    ((o.colorAttributes.any (fun a => a.name == nm)) = false →
      (ensure_color_attribute o nm).colorAttributes =
        o.colorAttributes ++
          [{ name := nm, attrType := "FLOAT_COLOR", domain := "POINT" }]) ∧
    ((ensure_color_attribute o nm).colorAttributes.any
      (fun a => a.name == nm)) = true := by
  have he : ∀ (x : Obj), ensure_color_attribute x nm =
      if x.colorAttributes.any (fun a => a.name == nm) then x
      else { x with colorAttributes := x.colorAttributes ++
        [{ name := nm, attrType := "FLOAT_COLOR", domain := "POINT" }] } := fun x => rfl
  by_cases h : (o.colorAttributes.any (fun a => a.name == nm)) = true
  · refine ⟨?_, fun _ => by rw [he o, if_pos h], ?_, ?_⟩
    · rw [he o, if_pos h, he o, if_pos h]
    · intro hf
      rw [h] at hf
      cases hf
    · rw [he o, if_pos h]
      exact h
  · have hext : (({ o with colorAttributes := o.colorAttributes ++
        [{ name := nm, attrType := "FLOAT_COLOR", domain := "POINT" }] } :
          Obj).colorAttributes.any (fun a => a.name == nm)) = true := by
      simp
    refine ⟨?_, fun ht => absurd ht h, fun _ => by rw [he o, if_neg h], ?_⟩
    · rw [he o, if_neg h, he _, if_pos hext]
    · rw [he o, if_neg h]
      exact hext

/-- Witness for C9: adding `VC_Packed` to a mesh without color attributes
creates exactly that one attribute, and it is then present. -/
theorem claim_C9_witness :
    (ensure_color_attribute cubeObj "VC_Packed").colorAttributes =
      [{ name := "VC_Packed", attrType := "FLOAT_COLOR", domain := "POINT" }] ∧
    ((ensure_color_attribute cubeObj "VC_Packed").colorAttributes.any
      (fun a => a.name == "VC_Packed")) = true := by
  have h := claim_C9 cubeObj "VC_Packed"
  refine ⟨?_, h.2.2.2⟩
  rw [h.2.2.1 (by decide)]
  rfl

/-- C3: the operator's outer `except Exception: log(...); raise` clause:
whenever the pipeline (asset load, material lookups, collection setup, and
the whole pipeline body) raises an exception `e`, `execute` appends the
"Bake failed at" log line after the start line and re-raises exactly the
same exception value `e` — no pipeline exception is swallowed; a run whose
pipeline raises nothing finishes with `{'FINISHED'}`. -/
theorem claim_C3 (env : Env) (w : World)
    (h : selected_mesh_objects env w ≠ []) :
    (∀ e, (run_pipeline env (selected_mesh_objects env w) w).err = some e →
      (OBJECT_OT_vc_bake_project.execute env w).status = Status.raised e ∧
      (OBJECT_OT_vc_bake_project.execute env w).logs =
        ["[Vertex Baker] Bake started at: " ++ env.now,
         "[Vertex Baker] Bake failed at: " ++ env.now]) ∧
    ((run_pipeline env (selected_mesh_objects env w) w).err = none →
      (OBJECT_OT_vc_bake_project.execute env w).status = Status.finished) := by
  constructor
  · intro e hp
    rw [execute_of_err_some env w h e hp]
    exact ⟨rfl, rfl⟩
  · intro hp
    rw [execute_of_err_none env w h hp]

/-- Witness for C3: with the bundled blend file missing, the pipeline raises
`FileNotFoundError`; the operator logs the failure line and re-raises that
same exception. -/
theorem claim_C3_witness :
    (OBJECT_OT_vc_bake_project.execute
      { selected := ["Cube"], blendFileExists := false, now := "10:00:00" }
      sampleW).status =
        Status.raised (Exn.fileNotFound "VertexBaker.blend not found next to add-on") ∧
    (OBJECT_OT_vc_bake_project.execute
      { selected := ["Cube"], blendFileExists := false, now := "10:00:00" }
      sampleW).logs =
        ["[Vertex Baker] Bake started at: 10:00:00",
         "[Vertex Baker] Bake failed at: 10:00:00"] :=
  (claim_C3 _ sampleW (by decide)).1 _ (by decide)

/-- Counterexample to C2 as stated: the try/finally that restores the render
engine and hides the bake collection wraps only the inner pipeline body
(src lines 536-637).  `load_from_blend` runs inside the outer `try` but
before that `try/finally`, so when the bundled blend file is missing the
operator raises `FileNotFoundError` while the pre-existing, visible
`VC_Bake` collection is left un-hidden — the claimed "visibility is set to
hidden" does not happen on this raising run. -/
theorem claim_C2_counterexample :
    (OBJECT_OT_vc_bake_project.execute
      { selected := ["Cube"], blendFileExists := false } sampleWVis).status =
      Status.raised (Exn.fileNotFound "VertexBaker.blend not found next to add-on") ∧
    ¬ ∃ c ∈ (OBJECT_OT_vc_bake_project.execute
      { selected := ["Cube"], blendFileExists := false } sampleWVis).w.collections,
      c.name = BAKE_COLLECTION ∧ c.hideViewport = true := by
  constructor
  · decide
  · decide

/-- C2 (amended): once the operator gets past asset loading and the two
material lookups (the bundled file exists and both materials are available),
then whether the pipeline body completes or raises — under any injected host
failure — the scene's render engine ends up restored to its initial value
and the `VC_Bake` collection ends up with `hide_viewport = True`, because of
the inner try/finally.  (An exception raised before that point leaves the
render engine untouched, hence equal to its initial value as well, but does
not hide the bake collection — see the counterexample.) -/
theorem claim_C2_amended (env : Env) (w : World)
    (hex : env.blendFileExists = true)
    (hc : MAT_CURVATURE ∈ w.materials ∨ MAT_CURVATURE ∈ env.blendMaterials)
    (hg : MAT_GRADIENT ∈ w.materials ∨ MAT_GRADIENT ∈ env.blendMaterials)
    (h : selected_mesh_objects env w ≠ []) :
    (OBJECT_OT_vc_bake_project.execute env w).w.render.engine = w.render.engine ∧
    ∃ c ∈ (OBJECT_OT_vc_bake_project.execute env w).w.collections,
      c.name = BAKE_COLLECTION ∧ c.hideViewport = true := by
  have hrun := run_pipeline_entered env (selected_mesh_objects env w) w hex hc hg
  cases hp : (run_pipeline env (selected_mesh_objects env w) w).err with
  | some e =>
    rw [execute_of_err_some env w h e hp]
    exact hrun
  | none =>
    rw [execute_of_err_none env w h hp]
    exact hrun

/-- Witness for the amended C2: a full run in which the AO bake raises mid
pipeline still restores the render engine and hides `VC_Bake`. -/
theorem claim_C2_witness :
    (OBJECT_OT_vc_bake_project.execute
      { sampleEnv with
        failAt := some FailPoint.bakeAO,
        failExn := Exn.runtimeError "bake failed" } sampleW).w.render.engine =
      sampleW.render.engine ∧
    ∃ c ∈ (OBJECT_OT_vc_bake_project.execute
      { sampleEnv with
        failAt := some FailPoint.bakeAO,
        failExn := Exn.runtimeError "bake failed" } sampleW).w.collections,
      c.name = BAKE_COLLECTION ∧ c.hideViewport = true :=
  claim_C2_amended _ _ (by decide) (by decide) (by decide) (by decide)

/-- C1: on a non-empty mesh selection, with the bundled assets available and
no host failure, the operator finishes and its event trace is exactly: asset
load first, then one duplication per selected mesh (into the bake
collection), then one modifier-cleaning per duplicate, then exactly three
bake passes in the order curvature-as-DIFFUSE, AO, gradient-as-DIFFUSE (with
the bounding-box creation, a step the claim does not mention, between the AO
and gradient passes), then one append-and-apply of the `VC_Packer`
node-group modifier per duplicate, and finally one data-transfer attachment
per original pointing at its duplicate. -/
theorem claim_C1 (env : Env) (w : World)
    (hex : env.blendFileExists = true)
    (hfail : env.failAt = none)
    (hc : MAT_CURVATURE ∈ w.materials ∨ MAT_CURVATURE ∈ env.blendMaterials)
    (hg : MAT_GRADIENT ∈ w.materials ∨ MAT_GRADIENT ∈ env.blendMaterials)
    (hpk : "VC_Packer" ∈ w.nodeGroups ∨ "VC_Packer" ∈ env.blendNodeGroups)
    (hpr : "VC_Processor" ∈ w.nodeGroups ∨ "VC_Processor" ∈ env.blendNodeGroups)
    (hne : selected_mesh_objects env w ≠ []) :
    (OBJECT_OT_vc_bake_project.execute env w).status = Status.finished ∧
    ∃ s1 s2 s3, (OBJECT_OT_vc_bake_project.execute env w).tr =
      [Event.loadAssets] ++
      ((selected_mesh_objects env w).map
        (fun n => Event.duplicate n (n ++ BAKE_SUFFIX))) ++
      ((selected_mesh_objects env w).map
        (fun n => Event.clean (n ++ BAKE_SUFFIX))) ++
      [Event.bakePass "DIFFUSE" VC_CURVATURE s1, Event.bakePass "AO" VC_AO s2,
       Event.boundingBox, Event.bakePass "DIFFUSE" VC_GRADIENT s3] ++
      ((selected_mesh_objects env w).map
        (fun n => Event.applyPacker (n ++ BAKE_SUFFIX))) ++
      ((selected_mesh_objects env w).map
        (fun n => Event.attachDT n (n ++ BAKE_SUFFIX))) := by
  obtain ⟨w3, herr, htr, hhr, hhr3, hng⟩ :=
    run_pipeline_reduce env (selected_mesh_objects env w) w hex hc hg
  have hpk3 : "VC_Packer" ∈ w3.nodeGroups := by
    rw [hng]
    exact mem_after_load_ng w env _ (by simp) hpk
  have hpr3 : "VC_Processor" ∈ w3.nodeGroups := by
    rw [hng]
    exact mem_after_load_ng w env _ (by simp) hpr
  obtain ⟨hbody_err, s1, s2, s3, hbody_tr⟩ :=
    pipeline_body_success env (selected_mesh_objects env w) w3 hfail hpk3 hpr3
  have hrun_err : (run_pipeline env (selected_mesh_objects env w) w).err = none := by
    rw [herr, hbody_err]
  rw [execute_of_err_none env w hne hrun_err]
  refine ⟨rfl, s1, s2, s3, ?_⟩
  show (run_pipeline env (selected_mesh_objects env w) w).tr = _
  rw [htr, hbody_tr]
  simp [List.map_map, Function.comp_def]

/-- Witness for C1: a full successful run over the one selected mesh. -/
theorem claim_C1_witness :
    (OBJECT_OT_vc_bake_project.execute sampleEnv sampleW).status = Status.finished ∧
    ∃ s1 s2 s3, (OBJECT_OT_vc_bake_project.execute sampleEnv sampleW).tr =
      [Event.loadAssets] ++
      ((selected_mesh_objects sampleEnv sampleW).map
        (fun n => Event.duplicate n (n ++ BAKE_SUFFIX))) ++
      ((selected_mesh_objects sampleEnv sampleW).map
        (fun n => Event.clean (n ++ BAKE_SUFFIX))) ++
      [Event.bakePass "DIFFUSE" VC_CURVATURE s1, Event.bakePass "AO" VC_AO s2,
       Event.boundingBox, Event.bakePass "DIFFUSE" VC_GRADIENT s3] ++
      ((selected_mesh_objects sampleEnv sampleW).map
        (fun n => Event.applyPacker (n ++ BAKE_SUFFIX))) ++
      ((selected_mesh_objects sampleEnv sampleW).map
        (fun n => Event.attachDT n (n ++ BAKE_SUFFIX))) :=
  claim_C1 sampleEnv sampleW (by decide) (by decide) (by decide) (by decide)
    (by decide) (by decide) (by decide)

/-- C6: once the AO pass is reached (assets available, curvature bake did not
fail), the AO bake invocation sees every selected original object with
`hide_render = True` (the snapshot recorded in the AO `bakePass` event), and
— whether the AO bake or any later step raises or not — each original's
`hide_render` flag in the operator's final state equals the value it had
before the pass (which is its initial value, since no earlier step touches
it); the restoration is the `finally` of `disable_render_temporarily` /
`restore_render_state`.  The name hypotheses rule out a selected object
named like a bake duplicate or like the bounding-box helper object. -/
theorem claim_C6 (env : Env) (w : World)
    (hex : env.blendFileExists = true)
    (hc : MAT_CURVATURE ∈ w.materials ∨ MAT_CURVATURE ∈ env.blendMaterials)
    (hg : MAT_GRADIENT ∈ w.materials ∨ MAT_GRADIENT ∈ env.blendMaterials)
    (hne : selected_mesh_objects env w ≠ [])
    (hcf : env.failAt ≠ some FailPoint.bakeCurvature)
    (hnd : (selected_mesh_objects env w).Nodup)
    (hbb : "_boundingbox_bake" ∉ selected_mesh_objects env w)
    (hdup : ∀ n ∈ selected_mesh_objects env w, ∀ m ∈ selected_mesh_objects env w,
      n ≠ m ++ BAKE_SUFFIX) :
    (∃ s, Event.bakePass "AO" VC_AO s ∈ (OBJECT_OT_vc_bake_project.execute env w).tr ∧
      ∀ n ∈ selected_mesh_objects env w, ∀ q ∈ s, q.1 = n → q.2 = true) ∧
    (∀ n ∈ selected_mesh_objects env w,
      objHideRender (OBJECT_OT_vc_bake_project.execute env w).w n =
        objHideRender w n) := by
  obtain ⟨w3, herr, htr, hhr, hhr3, hng⟩ :=
    run_pipeline_reduce env (selected_mesh_objects env w) w hex hc hg
  have hexecw : (OBJECT_OT_vc_bake_project.execute env w).w =
      (run_pipeline env (selected_mesh_objects env w) w).w := by
    cases hp : (run_pipeline env (selected_mesh_objects env w) w).err with
    | some e => rw [execute_of_err_some env w hne e hp]
    | none => rw [execute_of_err_none env w hne hp]
  have hexect : (OBJECT_OT_vc_bake_project.execute env w).tr =
      (run_pipeline env (selected_mesh_objects env w) w).tr := by
    cases hp : (run_pipeline env (selected_mesh_objects env w) w).err with
    | some e => rw [execute_of_err_some env w hne e hp]
    | none => rw [execute_of_err_none env w hne hp]
  constructor
  · obtain ⟨s, hmem, hprop⟩ :=
      pipeline_body_ao_event env (selected_mesh_objects env w) w3 hcf
    refine ⟨s, ?_, hprop⟩
    rw [hexect, htr]
    exact List.mem_cons_of_mem _ hmem
  · intro n hn
    rw [hexecw, hhr n,
      pipeline_body_objHideRender env _ w3 n hn hnd
        (fun heq => hbb (heq ▸ hn)) (hdup n hn),
      hhr3 n]

/-- Witness for C6: the AO bake itself raises, yet the cube's `hide_render`
flag is back to its initial value in the final state, and the recorded AO
snapshot shows the original hidden during the pass. -/
theorem claim_C6_witness :
    (∃ s, Event.bakePass "AO" VC_AO s ∈ (OBJECT_OT_vc_bake_project.execute
        { sampleEnv with
          failAt := some FailPoint.bakeAO,
          failExn := Exn.runtimeError "bake failed" } sampleW).tr ∧
      ∀ n ∈ selected_mesh_objects
        { sampleEnv with
          failAt := some FailPoint.bakeAO,
          failExn := Exn.runtimeError "bake failed" } sampleW,
        ∀ q ∈ s, q.1 = n → q.2 = true) ∧
    (∀ n ∈ selected_mesh_objects
        { sampleEnv with
          failAt := some FailPoint.bakeAO,
          failExn := Exn.runtimeError "bake failed" } sampleW,
      objHideRender (OBJECT_OT_vc_bake_project.execute
        { sampleEnv with
          failAt := some FailPoint.bakeAO,
          failExn := Exn.runtimeError "bake failed" } sampleW).w n =
        objHideRender sampleW n) :=
  claim_C6 _ sampleW (by decide) (by decide) (by decide) (by decide) (by decide)
    (by decide) (by decide) (by decide)

/-- C4: evidence for the divergence between `clean_bake_object_modifiers` and
its own docstring ("Bake meshes must ... have no disabled modifiers").  A
geometry-nodes modifier that has a node group not named `VC_Processor` or
`VC_Packer` enters the second `elif` branch, so its `show_viewport` flag is
never examined and it is not collected for removal even when disabled; it
falls through to the apply loop, and when `modifier_apply` raises
`RuntimeError` (which Blender does for a disabled modifier) the `except:
pass` leaves it on the stack.  Evaluating the function at that input shows
the disabled modifier surviving. -/
theorem claim_C4 :
    (clean_bake_object_modifiers (fun nm => nm == "GN_Detail")
      { name := "Plane", objType := "MESH", dataId := 0,
        modifiers := [{ name := "GN_Detail", mtype := "NODES",
                        nodeGroup := some "Other_Group",
                        showViewport := false }] }).modifiers =
      [{ name := "GN_Detail", mtype := "NODES", nodeGroup := some "Other_Group",
         showViewport := false }] ∧
    ∃ m ∈ (clean_bake_object_modifiers (fun nm => nm == "GN_Detail")
      { name := "Plane", objType := "MESH", dataId := 0,
        modifiers := [{ name := "GN_Detail", mtype := "NODES",
                        nodeGroup := some "Other_Group",
                        showViewport := false }] }).modifiers,
      m.showViewport = false := by
  constructor
  · decide
  · decide

theorem filter_name_len_of_removed (l : List Obj) (nn : String) (d : Obj)
    (hd : d.name = nn) :
    (((l.filter (fun o => o.name ≠ nn) ++ [d]).filter
      (fun x => x.name == nn)).length) = 1 := by
  rw [filter_name_of_removed l nn d hd]
  rfl

theorem filter_name_len_of_absent (l : List Obj) (nn : String) (d : Obj)
    (hd : d.name = nn) (h : l.any (fun o => o.name == nn) = false) :
    (((l ++ [d]).filter (fun x => x.name == nn)).length) = 1 := by
  rw [filter_name_of_absent l nn d hd h]
  rfl

theorem mem_objectNames_after_link (cols : List Collection) (nn cn : String) :
    ∀ c ∈ cols.map (fun c0 =>
      if c0.name = cn then { c0 with objectNames := c0.objectNames ++ [nn] } else c0),
      c.name = cn → nn ∈ c.objectNames := by
  intro c hc hname
  simp only [List.mem_map] at hc
  obtain ⟨c0, hc0, rfl⟩ := hc
  by_cases h : c0.name = cn
  · rw [if_pos h]
    simp
  · rw [if_neg h] at hname ⊢
    exact absurd hname h

/-- C5: `duplicate_object` on an existing object `o` named `origName`:
afterwards exactly one object named `origName ++ "_bake"` exists; it is a
copy of `o` (same object settings, same mesh contents) whose mesh datablock
is fresh (`dataId = nextDataId`, distinct from every pre-existing datablock
id, modeling `obj.data.copy()`); and it is linked into the `VC_Bake`
collection.  A pre-existing object with the suffixed name was removed first,
which is what makes the count exactly one.  (`execute` calls this once per
selected mesh — see the per-original `duplicate` events of C1.) -/
theorem claim_C5 (w : World) (origName : String) (o : Obj)
    (hfind : findObj w origName = some o)
    (hfresh : ∀ x ∈ w.objects, x.dataId < w.nextDataId) :
    (((duplicate_object w origName BAKE_SUFFIX BAKE_COLLECTION).objects.filter
        (fun x => x.name == origName ++ BAKE_SUFFIX)).length = 1) ∧
    (∃ d ∈ (duplicate_object w origName BAKE_SUFFIX BAKE_COLLECTION).objects,
      d.name = origName ++ BAKE_SUFFIX ∧ d.dataId = w.nextDataId ∧
      (∀ x ∈ w.objects, x.dataId ≠ d.dataId) ∧
      d.objType = o.objType ∧ d.colorAttributes = o.colorAttributes ∧
      d.modifiers = o.modifiers ∧ d.materials = o.materials) ∧
    (∀ c ∈ (duplicate_object w origName BAKE_SUFFIX BAKE_COLLECTION).collections,
      c.name = BAKE_COLLECTION → (origName ++ BAKE_SUFFIX) ∈ c.objectNames) := by
  unfold duplicate_object
  rw [hfind]
  dsimp only
  split
  case isTrue hAny =>
    refine ⟨?_, ?_, ?_⟩
    · unfold removeObjByName
      dsimp only
      apply filter_name_len_of_removed
      rfl
    · refine ⟨{ o with name := origName ++ BAKE_SUFFIX, dataId := w.nextDataId },
        List.mem_append_right _ (List.mem_singleton.mpr rfl), rfl, rfl, ?_,
        rfl, rfl, rfl, rfl⟩
      intro x hx
      exact Nat.ne_of_lt (hfresh x hx)
    · exact mem_objectNames_after_link _ _ _
  case isFalse hAny =>
    have hAny' : (w.objects.any (fun x => x.name == origName ++ BAKE_SUFFIX)) = false := by
      simpa using hAny
    refine ⟨?_, ?_, ?_⟩
    · apply filter_name_len_of_absent
      · rfl
      · exact hAny'
    · refine ⟨{ o with name := origName ++ BAKE_SUFFIX, dataId := w.nextDataId },
        List.mem_append_right _ (List.mem_singleton.mpr rfl), rfl, rfl, ?_,
        rfl, rfl, rfl, rfl⟩
      intro x hx
      exact Nat.ne_of_lt (hfresh x hx)
    · exact mem_objectNames_after_link _ _ _

/-- Witness for C5: duplicating the cube in a scene with the `VC_Bake`
collection present. -/
theorem claim_C5_witness :
    (((duplicate_object sampleWVis "Cube" BAKE_SUFFIX BAKE_COLLECTION).objects.filter
        (fun x => x.name == "Cube" ++ BAKE_SUFFIX)).length = 1) ∧
    (∃ d ∈ (duplicate_object sampleWVis "Cube" BAKE_SUFFIX BAKE_COLLECTION).objects,
      d.name = "Cube" ++ BAKE_SUFFIX ∧ d.dataId = sampleWVis.nextDataId ∧
      (∀ x ∈ sampleWVis.objects, x.dataId ≠ d.dataId) ∧
      d.objType = cubeObj.objType ∧ d.colorAttributes = cubeObj.colorAttributes ∧
      d.modifiers = cubeObj.modifiers ∧ d.materials = cubeObj.materials) ∧
    (∀ c ∈ (duplicate_object sampleWVis "Cube" BAKE_SUFFIX BAKE_COLLECTION).collections,
      c.name = BAKE_COLLECTION → ("Cube" ++ BAKE_SUFFIX) ∈ c.objectNames) :=
  claim_C5 sampleWVis "Cube" cubeObj (by decide) (by decide)

theorem any_name_map (l : List Modifier) (n : String) :
    l.any (fun m => m.name == n) = (l.map (fun m => m.name)).any (fun s => s == n) := by
  induction l with
  | nil => rfl
  | cons m l ih => simp [ih]

theorem filter_mname_of_absent (l : List Modifier) (n : String) (d : Modifier)
    (hd : d.name = n) (h : l.any (fun m => m.name == n) = false) :
    ((l ++ [d]).filter (fun m => m.name == n)) = [d] := by
  induction l with
  | nil =>
    show ([d].filter (fun m => m.name == n)) = [d]
    simp [List.filter, hd]
  | cons m l ih =>
    simp only [List.any_cons, Bool.or_eq_false_iff] at h
    rw [List.cons_append, List.filter_cons, if_neg (by simp [h.1])]
    exact ih h.2

/-- C10: `ensure_datatransfer` is idempotent; after any call the object has
exactly one modifier named `DT_VC_Packed` (the pre-existing one is reused —
the stack length does not grow — and otherwise exactly one new modifier is
appended), and that modifier is configured with the given source object,
vertex-domain color transfer (`use_vert_data`, not `use_loop_data`,
`COLOR_VERTEX` among the transferred vertex data), `NEAREST` vertex mapping,
and `REPLACE` mixing at factor 1.  Uniqueness of the count relies on
Blender's invariant that modifier names on one object are unique. -/
theorem claim_C10 (o : Obj) (src : String)
    (hnd : (o.modifiers.map (fun m => m.name)).Nodup) :
    (ensure_datatransfer (ensure_datatransfer o src) src = ensure_datatransfer o src) ∧
    (((ensure_datatransfer o src).modifiers.filter
        (fun m => m.name == DT_MOD_NAME)).length = 1) ∧
    ((ensure_datatransfer o src).modifiers.length =
      (if (o.modifiers.any (fun m => m.name == DT_MOD_NAME)) = true then
        o.modifiers.length else o.modifiers.length + 1)) ∧
    (∃ m ∈ (ensure_datatransfer o src).modifiers, m.name = DT_MOD_NAME ∧
      m.dtObject = some src ∧ m.useVertData = true ∧ m.useLoopData = false ∧
      "COLOR_VERTEX" ∈ m.dataTypesVerts ∧ m.vertMapping = "NEAREST" ∧
      m.mixMode = "REPLACE" ∧ m.mixFactor = 1 ∧ m.showInEditmode = false) := by
  have he : ∀ (x : Obj), ensure_datatransfer x src =
      if x.modifiers.any (fun m => m.name == DT_MOD_NAME) then
        { x with modifiers := updateModFirst x.modifiers DT_MOD_NAME (dtConfigure src) }
      else
        { x with modifiers := x.modifiers ++
          [dtConfigure src { name := DT_MOD_NAME, mtype := "DATA_TRANSFER" }] } :=
    fun x => rfl
  by_cases h : (o.modifiers.any (fun m => m.name == DT_MOD_NAME)) = true
  · have hany2 : ((updateModFirst o.modifiers DT_MOD_NAME
        (dtConfigure src)).any (fun m => m.name == DT_MOD_NAME)) = true := by
      rw [any_name_map,
        updateModFirst_names DT_MOD_NAME (dtConfigure src) (fun m => rfl) o.modifiers,
        ← any_name_map]
      exact h
    refine ⟨?_, ?_, ?_, ?_⟩
    · rw [he o, if_pos h, he _, if_pos hany2]
      dsimp only
      rw [updateModFirst_idem DT_MOD_NAME (dtConfigure src) (fun m => rfl)
        (fun m => rfl) o.modifiers]
    · rw [he o, if_pos h]
      dsimp only
      rw [updateModFirst_filter_len DT_MOD_NAME (dtConfigure src) (fun m => rfl) o.modifiers]
      exact Nat.le_antisymm (filter_name_len_le_one DT_MOD_NAME o.modifiers hnd)
        (filter_name_len_pos DT_MOD_NAME o.modifiers h)
    · rw [he o, if_pos h, if_pos h]
      dsimp only
      exact updateModFirst_len DT_MOD_NAME (dtConfigure src) o.modifiers
    · obtain ⟨m0, hm0, hmem⟩ :=
        updateModFirst_mem DT_MOD_NAME (dtConfigure src) o.modifiers h
      refine ⟨dtConfigure src m0, ?_, hm0, rfl, rfl, rfl, by simp [dtConfigure],
        rfl, rfl, rfl, rfl⟩
      rw [he o, if_pos h]
      exact hmem
  · have h' : (o.modifiers.any (fun m => m.name == DT_MOD_NAME)) = false := by
      simpa using h
    have hdname : (dtConfigure src
        { name := DT_MOD_NAME, mtype := "DATA_TRANSFER" }).name = DT_MOD_NAME := rfl
    have hany2 : ((o.modifiers ++ [dtConfigure src
        { name := DT_MOD_NAME, mtype := "DATA_TRANSFER" }]).any
        (fun m => m.name == DT_MOD_NAME)) = true := by
      rw [List.any_append]
      have hone : (([dtConfigure src
          { name := DT_MOD_NAME, mtype := "DATA_TRANSFER" }]).any
          (fun m => m.name == DT_MOD_NAME)) = true := by
        simp [hdname]
      rw [hone, Bool.or_true]
    refine ⟨?_, ?_, ?_, ?_⟩
    · rw [he o, if_neg h, he _, if_pos hany2]
      dsimp only
      rw [updateModFirst_append_nomatch DT_MOD_NAME (dtConfigure src) _ o.modifiers h']
      congr 1
    · rw [he o, if_neg h]
      dsimp only
      rw [filter_mname_of_absent o.modifiers DT_MOD_NAME _ hdname h']
      rfl
    · rw [he o, if_neg h, if_neg h]
      dsimp only
      simp
    · refine ⟨dtConfigure src { name := DT_MOD_NAME, mtype := "DATA_TRANSFER" }, ?_,
        rfl, rfl, rfl, rfl, by simp [dtConfigure], rfl, rfl, rfl, rfl⟩
      rw [he o, if_neg h]
      simp

/-- Witness for C10: attaching the projection modifier to the cube (which has
no modifiers) appends exactly one fully configured `DT_VC_Packed` modifier. -/
theorem claim_C10_witness :
    (ensure_datatransfer (ensure_datatransfer cubeObj "Cube_bake") "Cube_bake" =
      ensure_datatransfer cubeObj "Cube_bake") ∧
    (((ensure_datatransfer cubeObj "Cube_bake").modifiers.filter
        (fun m => m.name == DT_MOD_NAME)).length = 1) ∧
    ((ensure_datatransfer cubeObj "Cube_bake").modifiers.length =
      (if (cubeObj.modifiers.any (fun m => m.name == DT_MOD_NAME)) = true then
        cubeObj.modifiers.length else cubeObj.modifiers.length + 1)) ∧
    (∃ m ∈ (ensure_datatransfer cubeObj "Cube_bake").modifiers, m.name = DT_MOD_NAME ∧
      m.dtObject = some "Cube_bake" ∧ m.useVertData = true ∧ m.useLoopData = false ∧
      "COLOR_VERTEX" ∈ m.dataTypesVerts ∧ m.vertMapping = "NEAREST" ∧
      m.mixMode = "REPLACE" ∧ m.mixFactor = 1 ∧ m.showInEditmode = false) :=
  claim_C10 cubeObj "Cube_bake" (by decide)
